import Mathlib

/-!
Verification of the Content Scoring & Iterative Optimization Engine of the
seo-content-generator repository (src/main.py, src/src/scorer/content_scorer.py,
src/src/scorer/keyword_analyzer.py, src/src/scorer/readability_checker.py).

The Python code is shallowly embedded: texts are Lean `String`s (`List Char`
underneath, one entry per code point, matching Python's per-code-point string
indexing), Python floats are modelled as rationals (`ℚ`), Python `round(x, n)`
as round-half-to-even on `ℚ`, and the features the scorer reads off the
BeautifulSoup parse of the input are gathered in a `Doc` record (for plain,
markup-free text every markup field is empty, which is exactly what
BeautifulSoup yields there).
-/

namespace SEOGen

/-! ## Python string primitives -/

/-- Python `str.lower` restricted to the character repertoire this repository
processes: ASCII letters and the German umlauts (`ß` is already lowercase). -/
def lower_char (c : Char) : Char :=
  if 'A' ≤ c ∧ c ≤ 'Z' then Char.ofNat (c.toNat + 32)
  else if c = 'Ä' then 'ä'
  else if c = 'Ö' then 'ö'
  else if c = 'Ü' then 'ü'
  else c

def lower_chars (s : List Char) : List Char := s.map lower_char

/-- Python `str.lower`. -/
def py_lower (s : String) : String := ⟨lower_chars s.data⟩

/-- A character the regex class `\w` matches (letters, digits, underscore;
extended with the German letters the texts of this repository contain). -/
def is_word_char (c : Char) : Bool :=
  c.isAlpha || c.isDigit || c = '_' ||
    c ∈ ['ä', 'ö', 'ü', 'ß', 'Ä', 'Ö', 'Ü']

/-- A character the regex class `\s` matches. -/
def is_space_char (c : Char) : Bool :=
  c = ' ' || c = '\t' || c = '\n' || c = '\r' || c = '\x0b' || c = '\x0c'

/-- Python `str.strip()`: whitespace removed from both ends. -/
def py_strip_chars (s : List Char) : List Char :=
  ((s.dropWhile is_space_char).reverse.dropWhile is_space_char).reverse

def py_strip (s : String) : String := ⟨py_strip_chars s.data⟩

/-- Python `str.split()` with no argument: split on runs of whitespace,
dropping empty pieces. `acc` carries the current (reversed) token. -/
def split_ws_aux : List Char → List Char → List (List Char)
  | [], acc => if acc.isEmpty then [] else [acc.reverse]
  | c :: cs, acc =>
    if is_space_char c then
      if acc.isEmpty then split_ws_aux cs [] else acc.reverse :: split_ws_aux cs []
    else split_ws_aux cs (c :: acc)

def split_ws_chars (s : List Char) : List (List Char) := split_ws_aux s []

def py_split_ws (s : String) : List String := (split_ws_chars s.data).map String.mk

/-- Python `str.count` for a non-empty needle: non-overlapping occurrences,
scanning left to right. After a match the scan must pass over the rest of
the matched needle; `skip` counts the characters still to pass (a structural
rendering of "advance by the needle's length after a match", so that the
kernel can evaluate the function). -/
def count_sub_aux (needle : List Char) : List Char → Nat → Nat
  | [], _ => 0
  | c :: cs, skip =>
    if skip > 0 then count_sub_aux needle cs (skip - 1)
    else if needle.isPrefixOf (c :: cs) then 1 + count_sub_aux needle cs (needle.length - 1)
    else count_sub_aux needle cs 0

/-- Python `str.count`: for the empty needle Python reports `len + 1`
(one occurrence at every position, the end included). -/
def count_sub (hay needle : List Char) : Nat :=
  match needle with
  | [] => hay.length + 1
  | n :: ns => count_sub_aux (n :: ns) hay 0

def py_count (hay needle : String) : Nat := count_sub hay.data needle.data

/-- Python `needle in hay` (substring containment): equivalent to
`hay.count(needle) != 0`. -/
def py_contains (hay needle : String) : Bool := count_sub hay.data needle.data != 0

/-- Python slicing `s[:n]` (per code point, as Python indexes strings). -/
def py_take (s : String) (n : Nat) : String := ⟨s.data.take n⟩

/-- Python `str.startswith`. -/
def py_starts_with (s pre : String) : Bool := pre.data.isPrefixOf s.data

/-- Python `str.split(sep)` for a non-empty separator `p :: ps`: split at each
leftmost non-overlapping occurrence of the separator (`"a\n\n\nb".split("\n\n")`
is `["a", "\nb"]`); always at least one piece. `acc` carries the current
(reversed) piece, `skip` the characters of a matched separator still to pass. -/
def split_on_sep_aux (p : Char) (ps : List Char) :
    List Char → List Char → Nat → List (List Char)
  | [], acc, _ => [acc.reverse]
  | c :: cs, acc, skip =>
    if skip > 0 then split_on_sep_aux p ps cs acc (skip - 1)
    else if (p :: ps).isPrefixOf (c :: cs) then
      acc.reverse :: split_on_sep_aux p ps cs [] ps.length
    else split_on_sep_aux p ps cs (c :: acc) 0

def py_split_on (s : String) (sep : String) : List String :=
  match sep.data with
  | [] => [s]
  | p :: ps => ((split_on_sep_aux p ps s.data [] 0).map String.mk)

/-! ## Exact rational arithmetic the kernel can evaluate

Python's floats are modelled by exact rationals. Mathlib's `ℚ` normalizes
through `Nat.gcd`, which the kernel cannot reduce, so concrete runs of the
scorer could not be settled by `decide` over `ℚ`. `Frac` is an unnormalized
fraction (integer numerator, positive natural denominator) whose operations
are plain integer arithmetic; `Frac.toRat` interprets it in `ℚ`, and the
homomorphism lemmas below show every operation means exactly the rational
operation. Exact rationals agree with Python's binary floats except at
values that sit on a rounding boundary without being exactly representable;
the concrete inputs used below avoid such values. -/

structure Frac where
  num : ℤ
  den : ℕ+
deriving DecidableEq, Repr

instance instFracOfNat : OfNat Frac n := ⟨⟨n, 1⟩⟩

instance instFracNatCast : NatCast Frac := ⟨fun n => ⟨n, 1⟩⟩

instance instFracIntCast : IntCast Frac := ⟨fun n => ⟨n, 1⟩⟩

/-- Decimal literals such as `0.20` or `58.5`, read exactly. -/
instance instFracOfScientific : OfScientific Frac :=
  ⟨fun m b e => if b then ⟨m, ⟨10 ^ e, Nat.pos_pow_of_pos e (by norm_num)⟩⟩ else ⟨m * 10 ^ e, 1⟩⟩

def Frac.add (x y : Frac) : Frac :=
  ⟨x.num * (y.den : ℤ) + y.num * (x.den : ℤ), x.den * y.den⟩

instance instFracAdd : Add Frac := ⟨Frac.add⟩

def Frac.neg (x : Frac) : Frac := ⟨-x.num, x.den⟩

instance instFracNeg : Neg Frac := ⟨Frac.neg⟩

instance instFracSub : Sub Frac := ⟨fun x y => x + -y⟩

def Frac.mul (x y : Frac) : Frac := ⟨x.num * y.num, x.den * y.den⟩

instance instFracMul : Mul Frac := ⟨Frac.mul⟩

/-- Reciprocal; `0⁻¹ = 0`, the same junk value `ℚ` uses (the embedded code
never divides by zero: every division in the source is guarded). -/
def Frac.inv (x : Frac) : Frac :=
  if h : 0 < x.num then ⟨x.den, ⟨x.num.toNat, by omega⟩⟩
  else if h2 : x.num < 0 then ⟨-(x.den : ℤ), ⟨(-x.num).toNat, by omega⟩⟩
  else ⟨0, 1⟩

instance instFracDiv : Div Frac := ⟨fun x y => x * y.inv⟩

instance instFracLE : LE Frac := ⟨fun x y => x.num * (y.den : ℤ) ≤ y.num * (x.den : ℤ)⟩

instance instFracLT : LT Frac := ⟨fun x y => x.num * (y.den : ℤ) < y.num * (x.den : ℤ)⟩

instance (x y : Frac) : Decidable (x ≤ y) :=
  inferInstanceAs (Decidable (x.num * (y.den : ℤ) ≤ y.num * (x.den : ℤ)))

instance (x y : Frac) : Decidable (x < y) :=
  inferInstanceAs (Decidable (x.num * (y.den : ℤ) < y.num * (x.den : ℤ)))

/-- Equality of values (structural equality on `Frac` distinguishes `1/2`
from `2/4`; `eqv` does not). -/
def Frac.eqv (x y : Frac) : Prop := x.num * (y.den : ℤ) = y.num * (x.den : ℤ)

instance (x y : Frac) : Decidable (x.eqv y) :=
  inferInstanceAs (Decidable (x.num * (y.den : ℤ) = y.num * (x.den : ℤ)))

/-- Python `max(x, y)`. -/
def py_max (x y : Frac) : Frac := if x ≤ y then y else x

/-- Python `min(x, y)`. -/
def py_min (x y : Frac) : Frac := if x ≤ y then x else y

/-- The floor of the value, by integer division. -/
def Frac.floorI (x : Frac) : ℤ := x.num / (x.den : ℤ)

/-- The value in `ℚ`. -/
def Frac.toRat (x : Frac) : ℚ := (x.num : ℚ) / ((x.den : ℕ) : ℚ)

/-! ## Rounding and number formatting

Python's `round(x, n)` and `f"{x:.nf}"` round half to even. -/

/-- Round half to even, to an integer: the specification-level version
over `ℚ`. -/
def round_half_even (q : ℚ) : ℤ :=
  let f := ⌊q⌋
  let r : ℚ := q - f
  if r < 1 / 2 then f
  else if 1 / 2 < r then f + 1
  else if f % 2 = 0 then f else f + 1

/-- `round_half_even` over `Frac` (proved to agree with the `ℚ` version). -/
def rhe_frac (x : Frac) : ℤ :=
  let f := x.floorI
  let r : Frac := x - (f : Frac)
  if r < 0.5 then f
  else if (0.5 : Frac) < r then f + 1
  else if f % 2 = 0 then f else f + 1

/-- Python `round(x, 2)`: the specification-level version over `ℚ`. -/
def round2 (q : ℚ) : ℚ := (round_half_even (q * 100) : ℚ) / 100

/-- Python `round(x, 2)` over `Frac`. -/
def round2_frac (x : Frac) : Frac := ⟨rhe_frac (x * 100), ⟨100, by norm_num⟩⟩

/-- Decimal digits of a non-negative value, left-padded to `k` digits: the
fractional part of fixed-point formatting. -/
def pad_digits (k : Nat) (n : Nat) : String :=
  let s := toString n
  ⟨List.replicate (k - s.data.length) '0'⟩ ++ s

/-- Python `f"{x:.kf}"` for non-negative `x` (the only values formatted here). -/
def fmt_fixed (k : Nat) (x : Frac) : String :=
  let n := (rhe_frac (x * ((10 ^ k : ℕ) : Frac))).toNat
  toString (n / 10 ^ k) ++ "." ++ pad_digits k (n % 10 ^ k)

def fmt1 (x : Frac) : String := fmt_fixed 1 x

def fmt2 (x : Frac) : String := fmt_fixed 2 x

/-! ## KeywordAnalyzer (src/src/scorer/keyword_analyzer.py) -/

/-- KeywordAnalyzer._tokenize: lowercase, replace every non-word non-space
character by a space (`re.sub(r'[^\w\s]', ' ', text)`), split on whitespace,
keep only words longer than 2 characters. -/
def tokenize (text : String) : List String :=
  let lowered := lower_chars text.data
  let cleaned := lowered.map fun c => if is_word_char c || is_space_char c then c else ' '
  ((split_ws_chars cleaned).map String.mk).filter fun w => w.data.length > 2

/-- The fixed German stop-word set of KeywordAnalyzer._get_stopwords. -/
def stopwords : List String :=
  ["der", "die", "das", "den", "dem", "des", "ein", "eine", "einer", "eines",
   "und", "oder", "aber", "ist", "sind", "war", "waren", "wird", "werden",
   "hat", "haben", "hatte", "hatten", "kann", "können", "konnte", "konnten",
   "muss", "müssen", "musste", "mussten", "soll", "sollen", "sollte", "sollten",
   "für", "mit", "auf", "bei", "von", "zu", "im", "am", "an", "als", "auch",
   "nicht", "nur", "noch", "mehr", "sehr", "wie", "was", "wenn", "dass", "weil",
   "sich", "sie", "er", "es", "wir", "ihr", "ich", "du", "man", "diese", "sein",
   "dieser", "dieses", "alle", "jede", "jeder", "jedes", "nach", "über", "vor",
   "aus", "durch", "um", "bis", "zum", "zur", "beim", "vom", "ins", "ans",
   "gegen", "ohne", "seit", "während", "wegen", "trotz", "statt", "außer",
   "hier", "da", "dort", "dann", "nun", "schon", "noch", "immer", "nie",
   "heute", "morgen", "gestern", "jetzt", "bald", "oft", "manchmal", "immer"]

/-- KeywordAnalyzer._find_keyword_variations (`list(variations)[:10]`; the
iteration order of the Python set is implementation-defined, modelled here as
first-qualification order — no claim depends on the order or on the list). -/
def find_keyword_variations (words : List String) (keyword : String) : List String :=
  let keyword_parts := py_split_ws keyword
  let qualifies : String → Bool := fun word =>
    if keyword_parts.length > 1 then
      keyword_parts.any fun part =>
        part.data.length > 3 && py_contains word part && word ≠ part
    else
      (py_contains word keyword && word ≠ keyword) ||
      (py_contains keyword word && word.data.length > 3)
  ((words.filter qualifies).dedup).take 10

/-- The main-keyword record KeywordAnalyzer._analyze_main_keyword returns. -/
structure KwMain where
  keyword : String
  count : Nat
  density : Frac
  variations : List String
  variation_count : Nat
deriving DecidableEq, Repr

/-- KeywordAnalyzer._analyze_main_keyword: occurrences by Python substring
count over the lowercased text, density as percent of the token count
(0 when there is no token), rounded to 2 decimals. -/
def analyze_main_keyword (text_lower : String) (words : List String)
    (keyword : String) : KwMain :=
  let keyword_lower := py_lower keyword
  let count := py_count text_lower keyword_lower
  let total_words := words.length
  let density : Frac :=
    if total_words > 0 then (count : Frac) / (total_words : Frac) * 100 else 0
  let variations := find_keyword_variations words keyword_lower
  { keyword := keyword, count := count, density := round2_frac density,
    variations := variations, variation_count := variations.length }

/-- One related keyword of KeywordAnalyzer._find_related_keywords. -/
structure RelKw where
  keyword : String
  count : Nat
  relevance : Frac
deriving DecidableEq, Repr

/-- KeywordAnalyzer._calculate_relevance: 1.0 when one string contains the
other, otherwise the shared-character count over the longer length. -/
def calculate_relevance (word : String) (main_keyword : String) : Frac :=
  let main_kw_lower := py_lower main_keyword
  if py_contains main_kw_lower word || py_contains word main_kw_lower then 1
  else
    let common_chars := (word.data.dedup).filter (· ∈ main_kw_lower.data)
    (common_chars.length : Frac) /
      ((max word.data.length main_kw_lower.data.length : ℕ) : Frac)

/-- A `collections.Counter` over the words, as an association list in
first-occurrence order of the keys. -/
def counter_insert (l : List (String × Nat)) (w : String) : List (String × Nat) :=
  match l with
  | [] => [(w, 1)]
  | (v, c) :: rest => if v = w then (v, c + 1) :: rest else (v, c) :: counter_insert rest w

def word_counter (words : List String) : List (String × Nat) :=
  words.foldl counter_insert []

/-- Stable insertion by descending count: an element goes after every earlier
element of count at least its own. -/
def insert_by_count (p : String × Nat) : List (String × Nat) → List (String × Nat)
  | [] => [p]
  | q :: qs => if q.2 > p.2 then q :: insert_by_count p qs else p :: q :: qs

/-- `Counter.most_common(n)`: the `n` keys of largest count, counts
descending, ties in first-occurrence order (`heapq.nlargest` is equivalent to
a stable descending sort followed by a cut). -/
def most_common (n : Nat) (l : List (String × Nat)) : List (String × Nat) :=
  (l.foldr insert_by_count []).take n

/-- Stable insertion by descending relevance, for `related.sort(key=...,
reverse=True)` (Python's sort is stable). -/
def insert_by_relevance (p : RelKw) : List RelKw → List RelKw
  | [] => [p]
  | q :: qs => if p.relevance < q.relevance then q :: insert_by_relevance p qs
               else p :: q :: qs

def sort_by_relevance (l : List RelKw) : List RelKw :=
  l.foldr insert_by_relevance []

/-- Ordered by non-increasing relevance (the order `related.sort(key=...,
reverse=True)` establishes). -/
def relevance_ge (a b : RelKw) : Prop := b.relevance.toRat ≤ a.relevance.toRat

/-- The candidate list KeywordAnalyzer._find_related_keywords builds before
its final sort and top-20 cut: it walks `word_counts.most_common(50)`,
skips stop words and the main keyword, and keeps counts of at least 2. -/
def related_candidates (words : List String) (main_keyword : String) : List RelKw :=
  (most_common 50 (word_counter words)).foldr
    (fun wc acc =>
      if wc.1 ∈ stopwords ∨ wc.1 = py_lower main_keyword then acc
      else if wc.2 ≥ 2 then
        ⟨wc.1, wc.2, calculate_relevance wc.1 main_keyword⟩ :: acc
      else acc)
    []

/-- KeywordAnalyzer._find_related_keywords: the candidates, sorted by
descending relevance (stably), top 20. -/
def find_related_keywords (words : List String) (main_keyword : String) : List RelKw :=
  (sort_by_relevance (related_candidates words main_keyword)).take 20

/-- The position record KeywordAnalyzer._find_keyword_positions returns. -/
structure KwPositions where
  total_occurrences : Nat
  in_first_100_chars : Bool
  in_first_paragraph : Bool
  in_last_paragraph : Bool
  positions : List Nat
deriving DecidableEq, Repr

/-- Every position at which `needle` occurs in `hay` (`i` is the index of the
head of `hay` in the full text), in increasing order, overlapping occurrences
included: exactly what the source's `find`/`start = pos + 1` loop collects;
for the empty needle Python's loop yields every position up to the length,
as does this scan. -/
def occurrence_positions_aux (needle : List Char) : List Char → Nat → List Nat
  | [], i => if needle.isEmpty then [i] else []
  | c :: cs, i =>
    (if needle.isPrefixOf (c :: cs) then [i] else []) ++
      occurrence_positions_aux needle cs (i + 1)

def occurrence_positions (hay needle : List Char) : List Nat :=
  occurrence_positions_aux needle hay 0

/-- KeywordAnalyzer._find_keyword_positions: all occurrence offsets of the
lowercased keyword in the lowercased text, with the distribution flags
(first 100 characters, first 500 = "first paragraph" proxy, last 500 = "last
paragraph" proxy) and the first 10 offsets. -/
def find_keyword_positions (text keyword : String) : KwPositions :=
  let text_lower := lower_chars text.data
  let keyword_lower := lower_chars keyword.data
  let positions := occurrence_positions text_lower keyword_lower
  let text_length := text.data.length
  { total_occurrences := positions.length
    in_first_100_chars := positions.any fun pos => pos < 100
    in_first_paragraph := positions.any fun pos => pos < 500
    in_last_paragraph := positions.any fun pos => (pos : ℤ) > (text_length : ℤ) - 500
    positions := positions.take 10 }

/-- The record KeywordAnalyzer.analyze returns. -/
structure KwAnalysis where
  main_keyword : KwMain
  related_keywords : List RelKw
  positions : KwPositions
  total_keywords : Nat
deriving DecidableEq, Repr

/-- KeywordAnalyzer.analyze. -/
def keyword_analyze (text : String) (main_keyword : String) : KwAnalysis :=
  let text_lower := py_lower text
  let words := tokenize text
  let related_kw := find_related_keywords words main_keyword
  { main_keyword := analyze_main_keyword text_lower words main_keyword
    related_keywords := related_kw
    positions := find_keyword_positions text main_keyword
    total_keywords := related_kw.length + 1 }

/-! ## ReadabilityChecker (src/src/scorer/readability_checker.py) -/

/-- A sentence-terminating character of `re.split(r'[.!?]+', text)`. -/
def is_sent_end (c : Char) : Bool := c = '.' || c = '!' || c = '?'

/-- Split at runs of sentence-terminating punctuation (the raw pieces of
`re.split(r'[.!?]+', text)`, before stripping): consecutive terminators
separate once; `in_run` says the previous character was a terminator. -/
def split_sent_aux : List Char → List Char → Bool → List (List Char)
  | [], acc, _ => [acc.reverse]
  | c :: cs, acc, in_run =>
    if is_sent_end c then
      if in_run then split_sent_aux cs acc true
      else acc.reverse :: split_sent_aux cs [] true
    else split_sent_aux cs (c :: acc) false

/-- ReadabilityChecker._split_sentences: split on `[.!?]+`, strip each piece,
drop the empty ones. -/
def split_sentences (text : String) : List String :=
  ((split_sent_aux text.data [] false).map py_strip_chars).filterMap fun s =>
    if s.isEmpty then none else some ⟨s⟩

/-- ReadabilityChecker._split_words: replace every non-word non-space
character by a space, split on whitespace (the source's extra
`w.strip()`-nonempty filter never drops anything after a whitespace split
and is kept for fidelity). -/
def split_words (text : String) : List String :=
  let cleaned := text.data.map fun c => if is_word_char c || is_space_char c then c else ' '
  (((split_ws_chars cleaned).map String.mk)).filter fun w => !(py_strip w).data.isEmpty

/-- A vowel of the simplified German syllable counter (`'aeiouäöüy'`). -/
def is_vowel_de (c : Char) : Bool :=
  c = 'a' || c = 'e' || c = 'i' || c = 'o' || c = 'u' || c = 'ä' || c = 'ö' || c = 'ü' || c = 'y'

/-- Maximal vowel runs in a word (`previous_was_vowel` scan). -/
def vowel_groups : List Char → Bool → Nat
  | [], _ => 0
  | c :: cs, previous_was_vowel =>
    (if is_vowel_de c && !previous_was_vowel then 1 else 0) + vowel_groups cs (is_vowel_de c)

/-- ReadabilityChecker._count_word_syllables: vowel groups, at least 1. -/
def count_word_syllables (word : String) : Nat :=
  max 1 (vowel_groups word.data false)

/-- ReadabilityChecker._count_syllables: sum over the lowercased words. -/
def count_syllables (text : String) : Nat :=
  ((split_words text).map fun w => count_word_syllables (py_lower w)).sum

/-- ReadabilityChecker._calculate_flesch_reading_ease: 0 when there is no
sentence or no word, otherwise `180 - asl - 58.5 * asw` clamped to [0, 100]. -/
def calculate_flesch_reading_ease (sentences words syllables : Nat) : Frac :=
  if sentences = 0 ∨ words = 0 then 0
  else
    let asl : Frac := (words : Frac) / (sentences : Frac)
    let asw : Frac := (syllables : Frac) / (words : Frac)
    let score := 180 - asl - 58.5 * asw
    py_max 0 (py_min 100 score)

/-- ReadabilityChecker._calculate_complexity. -/
def calculate_complexity (words : List String) (sentences : List String) : Frac :=
  if words.isEmpty then 0
  else
    let long_words := (words.filter fun w => w.data.length > 12).length
    let long_word_ratio : Frac := (long_words : Frac) / (words.length : Frac)
    let c1 : Frac := long_word_ratio * 40
    let c2 : Frac :=
      if sentences.isEmpty then 0
      else
        let avg_sentence_length : Frac := (words.length : Frac) / (sentences.length : Frac)
        if (25 : Frac) < avg_sentence_length then 30
        else if (20 : Frac) < avg_sentence_length then 20
        else if (15 : Frac) < avg_sentence_length then 10
        else 0
    let unique_ratio : Frac := (words.dedup.length : Frac) / (words.length : Frac)
    let c3 : Frac :=
      if (0.7 : Frac) < unique_ratio then 30
      else if (0.5 : Frac) < unique_ratio then 20
      else 0
    py_min 100 (c1 + c2 + c3)

/-- ReadabilityChecker._get_readability_grade. -/
def get_readability_grade (flesch_score : Frac) : String :=
  if flesch_score ≥ 80 then "Sehr leicht (5. Klasse)"
  else if flesch_score ≥ 70 then "Leicht (6. Klasse)"
  else if flesch_score ≥ 60 then "Relativ leicht (7.-8. Klasse)"
  else if flesch_score ≥ 50 then "Standard (9.-10. Klasse)"
  else if flesch_score ≥ 40 then "Relativ schwierig (11.-12. Klasse)"
  else if flesch_score ≥ 30 then "Schwierig (Studium)"
  else "Sehr schwierig (Akademisch)"

/-- The record ReadabilityChecker.check returns. -/
structure ReadabilityResult where
  flesch_reading_ease : Frac
  avg_sentence_length : Frac
  avg_word_length : Frac
  avg_syllables_per_word : Frac
  total_sentences : Nat
  total_words : Nat
  total_syllables : Nat
  complexity_score : Frac
  readability_grade : String
deriving DecidableEq, Repr

/-- ReadabilityChecker.check. -/
def readability_check (text : String) : ReadabilityResult :=
  let sentences := split_sentences text
  let words := split_words text
  let syllables := count_syllables text
  let avg_sentence_length : Frac :=
    if ¬sentences.isEmpty then (words.length : Frac) / (sentences.length : Frac) else 0
  let avg_word_length : Frac :=
    if ¬words.isEmpty then
      (((words.map fun w => w.data.length).sum : ℕ) : Frac) / (words.length : Frac)
    else 0
  let avg_syllables_per_word : Frac :=
    if ¬words.isEmpty then (syllables : Frac) / (words.length : Frac) else 0
  let flesch := calculate_flesch_reading_ease sentences.length words.length syllables
  let complexity := calculate_complexity words sentences
  { flesch_reading_ease := round2_frac flesch
    avg_sentence_length := round2_frac avg_sentence_length
    avg_word_length := round2_frac avg_word_length
    avg_syllables_per_word := round2_frac avg_syllables_per_word
    total_sentences := sentences.length
    total_words := words.length
    total_syllables := syllables
    complexity_score := round2_frac complexity
    readability_grade := get_readability_grade flesch }

/-! ## The document model for ContentScorer (src/src/scorer/content_scorer.py)

ContentScorer.score parses its input with BeautifulSoup and reads a fixed set
of features off the parse. `Doc` gathers the input together with exactly
those features, abstracting the HTML parser itself: `text` is the raw input,
`plain_text` is `soup.get_text()` when the stripped input starts with `<` and
the input itself otherwise, and the remaining fields are the tag queries the
scorer performs (heading texts, counts of lists/emphasis/semantic/media/link
elements, title and meta-description contents, per-image presence of a
non-empty alt attribute). For plain text without markup BeautifulSoup finds
no tags, so every markup field is empty — `mk_plain_doc` below. -/

structure Doc where
  text : String
  plain_text : String
  h1_texts : List String
  h2_texts : List String
  h3_count : Nat
  ul_count : Nat
  ol_count : Nat
  bold_count : Nat
  title : Option String
  meta_description : Option String
  img_has_alt : List Bool
  semantic_tag_count : Nat
  video_count : Nat
  link_count : Nat
  button_count : Nat
  form_count : Nat
deriving DecidableEq, Repr

/-- The parse of markup-free plain text (not starting with `<`): no tags,
`plain_text = text`. -/
def mk_plain_doc (s : String) : Doc :=
  { text := s, plain_text := s, h1_texts := [], h2_texts := [], h3_count := 0,
    ul_count := 0, ol_count := 0, bold_count := 0, title := none,
    meta_description := none, img_has_alt := [], semantic_tag_count := 0,
    video_count := 0, link_count := 0, button_count := 0, form_count := 0 }

/-- The competitor-analysis dictionary, restricted to the fields
ContentScorer reads, each optional since the source reads them with `.get`
defaults (an empty dict is `⟨none, none, none⟩`). -/
structure CompetitorData where
  keyword_density_avg : Option Frac
  recommended_word_count : Option Nat
  common_topics : Option (List String)
deriving DecidableEq, Repr

def CompetitorData.empty : CompetitorData := ⟨none, none, none⟩

/-- One category's result dictionary (`score`, `max_score`, `percentage`,
`details`; the source also stores a category-specific `metrics` entry, which
neither the total nor the suggestions consume — it is available through the
standalone analyzer functions above). -/
structure CatResult where
  score : Nat
  max_score : Nat
  percentage : Frac
  details : List String
deriving DecidableEq, Repr

/-- A category result with `max_score = 100`, as every category builds it. -/
def mk_cat (score : Nat) (details : List String) : CatResult :=
  { score := score, max_score := 100,
    percentage := round2_frac ((score : Frac) / (100 : Frac) * 100)
    details := details }

/-! ### Category 1: keyword optimization -/

/-- The density tier of _score_keyword_optimization (40 / 25 / 10 points),
applied to the (rounded) density the analyzer reports. -/
def density_part (actual_density : Frac) : Nat × List String :=
  if 1.0 ≤ actual_density ∧ actual_density ≤ 3.0 then
    (40, ["✓ Keyword-Dichte optimal: " ++ fmt2 actual_density ++ "%"])
  else if (0.5 ≤ actual_density ∧ actual_density < 1.0) ∨
      (3.0 < actual_density ∧ actual_density ≤ 4.0) then
    (25, ["⚠ Keyword-Dichte akzeptabel: " ++ fmt2 actual_density ++ "%"])
  else
    (10, ["✗ Keyword-Dichte suboptimal: " ++ fmt2 actual_density ++ "%"])

/-- The first-paragraph bonus: 10 points when the lowercased keyword occurs
in the first 200 characters of the plain text
(`keyword.lower() in plain_text[:200].lower()`). -/
def first_paragraph_part (plain_text keyword : String) : Nat × List String :=
  let first_paragraph := py_lower (py_take plain_text 200)
  if py_contains first_paragraph (py_lower keyword) then
    (10, ["✓ Keyword im ersten Absatz"])
  else (0, [])

/-- The H1 bonus: 10 points when some H1 heading contains the keyword. -/
def h1_part (h1_texts : List String) (keyword : String) : Nat × List String :=
  if h1_texts.any fun h1 => py_contains (py_lower h1) (py_lower keyword) then
    (10, ["✓ Keyword in H1"])
  else (0, [])

/-- The H2 bonus: 10 points for at least 2 H2 headings containing the
keyword, 5 for exactly one. -/
def h2_part (h2_texts : List String) (keyword : String) : Nat × List String :=
  let h2_with_kw := (h2_texts.filter fun h2 =>
    py_contains (py_lower h2) (py_lower keyword)).length
  if h2_with_kw ≥ 2 then
    (10, ["✓ Keyword in " ++ toString h2_with_kw ++ " H2-Überschriften"])
  else if h2_with_kw = 1 then (5, [])
  else (0, [])

/-- The LSI tier (30 / 20 / 10 points on the related-keyword count). -/
def lsi_part (lsi_count : Nat) : Nat × List String :=
  if lsi_count ≥ 10 then
    (30, ["✓ " ++ toString lsi_count ++ " semantische Keywords gefunden"])
  else if lsi_count ≥ 5 then
    (20, ["⚠ " ++ toString lsi_count ++ " semantische Keywords (mehr empfohlen)"])
  else
    (10, ["✗ Nur " ++ toString lsi_count ++ " semantische Keywords"])

/-- ContentScorer._score_keyword_optimization (the `target_density` the
source reads from the benchmark is never used by the tiers and is omitted). -/
def score_keyword_optimization (doc : Doc) (keyword : String) : CatResult :=
  let kw_analysis := keyword_analyze doc.plain_text keyword
  let d := density_part kw_analysis.main_keyword.density
  let p1 := first_paragraph_part doc.plain_text keyword
  let p2 := h1_part doc.h1_texts keyword
  let p3 := h2_part doc.h2_texts keyword
  let l := lsi_part kw_analysis.related_keywords.length
  mk_cat (d.1 + (p1.1 + p2.1 + p3.1) + l.1) (d.2 ++ p1.2 ++ p2.2 ++ p3.2 ++ l.2)

/-! ### Category 2: structure and readability -/

/-- The H1-count tier (exactly one: 15, none: 0, several: 5). -/
def h1_count_part (h1_count : Nat) : Nat × List String :=
  if h1_count = 1 then (15, ["✓ Eine H1-Überschrift"])
  else if h1_count = 0 then (0, ["✗ Keine H1-Überschrift"])
  else (5, ["⚠ " ++ toString h1_count ++ " H1-Überschriften (nur 1 empfohlen)"])

/-- The H2-count tier (≥5: 15, ≥3: 10, fewer: 5). -/
def h2_count_part (h2_count : Nat) : Nat × List String :=
  if h2_count ≥ 5 then (15, ["✓ " ++ toString h2_count ++ " H2-Überschriften (gute Struktur)"])
  else if h2_count ≥ 3 then (10, ["⚠ " ++ toString h2_count ++ " H2-Überschriften (mehr empfohlen)"])
  else (5, ["✗ Nur " ++ toString h2_count ++ " H2-Überschriften"])

/-- The H3-count tier (≥3: 10, ≥2: 7, fewer: 0). -/
def h3_count_part (h3_count : Nat) : Nat × List String :=
  if h3_count ≥ 3 then (10, ["✓ " ++ toString h3_count ++ " H3-Überschriften"])
  else if h3_count ≥ 2 then (7, [])
  else (0, [])

/-- The readability tier on the (rounded) Flesch value (≥60: 20, ≥40: 12,
else 5). -/
def flesch_part (flesch_score : Frac) : Nat × List String :=
  if flesch_score ≥ 60 then (20, ["✓ Gute Lesbarkeit (Flesch: " ++ fmt1 flesch_score ++ ")"])
  else if flesch_score ≥ 40 then
    (12, ["⚠ Akzeptable Lesbarkeit (Flesch: " ++ fmt1 flesch_score ++ ")"])
  else (5, ["✗ Schwierige Lesbarkeit (Flesch: " ++ fmt1 flesch_score ++ ")"])

/-- The sentence-length tier on the (rounded) average (≤20: 10, ≤25: 7,
else 3). -/
def sentence_length_part (avg_sentence_length : Frac) : Nat × List String :=
  if avg_sentence_length ≤ 20 then
    (10, ["✓ Kurze Sätze (Ø " ++ fmt1 avg_sentence_length ++ " Wörter)"])
  else if avg_sentence_length ≤ 25 then (7, [])
  else (3, ["⚠ Lange Sätze (Ø " ++ fmt1 avg_sentence_length ++ " Wörter)"])

/-- The paragraphs of the structure category: split on `"\n\n"`, stripped,
empties dropped. -/
def structure_paragraphs (plain_text : String) : List String :=
  ((py_split_on plain_text "\n\n").map py_strip).filter fun p => !p.data.isEmpty

/-- The paragraph-length bonus: 5 points when there are paragraphs and their
average word count is at most 100. -/
def paragraph_length_part (plain_text : String) : Nat × List String :=
  let paragraphs := structure_paragraphs plain_text
  if !paragraphs.isEmpty then
    let avg_para_length : Frac :=
      (((paragraphs.map fun p => (py_split_ws p).length).sum : ℕ) : Frac) /
        (paragraphs.length : Frac)
    if avg_para_length ≤ 100 then (5, ["✓ Gut strukturierte Absätze"]) else (0, [])
  else (0, [])

/-- The list tier (≥2 lists: 15, exactly 1: 10). -/
def list_part (list_count : Nat) : Nat × List String :=
  if list_count ≥ 2 then (15, ["✓ " ++ toString list_count ++ " Listen/Aufzählungen"])
  else if list_count = 1 then (10, [])
  else (0, [])

/-- The emphasis tier (≥3 bold/strong: 10, ≥1: 5). -/
def bold_part (bold_count : Nat) : Nat × List String :=
  if bold_count ≥ 3 then (10, ["✓ Wichtige Begriffe hervorgehoben"])
  else if bold_count ≥ 1 then (5, [])
  else (0, [])

/-- ContentScorer._score_structure_readability. -/
def score_structure_readability (doc : Doc) : CatResult :=
  let readability := readability_check doc.plain_text
  let a := h1_count_part doc.h1_texts.length
  let b := h2_count_part doc.h2_texts.length
  let c := h3_count_part doc.h3_count
  let d := flesch_part readability.flesch_reading_ease
  let e := sentence_length_part readability.avg_sentence_length
  let f := paragraph_length_part doc.plain_text
  let g := list_part (doc.ul_count + doc.ol_count)
  let h := bold_part doc.bold_count
  mk_cat (a.1 + b.1 + c.1 + d.1 + e.1 + f.1 + g.1 + h.1)
    (a.2 ++ b.2 ++ c.2 ++ d.2 ++ e.2 ++ f.2 ++ g.2 ++ h.2)

/-! ### Category 3: content quality -/

/-- The length tier against the recommended word count (40 / 30 / 20 / 10). -/
def length_part (word_count target_word_count : Nat) : Nat × List String :=
  if word_count ≥ target_word_count then
    (40, ["✓ Ausreichende Länge: " ++ toString word_count ++ " Wörter"])
  else if (word_count : Frac) ≥ (target_word_count : Frac) * 0.8 then
    (30, ["⚠ " ++ toString word_count ++ " Wörter (Ziel: " ++
      toString target_word_count ++ ")"])
  else if (word_count : Frac) ≥ (target_word_count : Frac) * 0.6 then
    (20, ["⚠ Zu kurz: " ++ toString word_count ++ " Wörter"])
  else
    (10, ["✗ Deutlich zu kurz: " ++ toString word_count ++ " Wörter"])

/-- Maximal runs of word characters of the text, in order: the pieces on
which `re.findall(r'\b\d+\b', text)` can match (a run matches exactly when
it consists of digits). -/
def word_runs_aux : List Char → List Char → List (List Char)
  | [], acc => if acc.isEmpty then [] else [acc.reverse]
  | c :: cs, acc =>
    if is_word_char c then word_runs_aux cs (c :: acc)
    else if acc.isEmpty then word_runs_aux cs [] else acc.reverse :: word_runs_aux cs []

def word_runs (s : List Char) : List (List Char) := word_runs_aux s []

/-- `len(re.findall(r'\b\d+\b', plain_text))`: the number of maximal
word-character runs made of digits only. -/
def count_numbers (plain_text : String) : Nat :=
  ((word_runs plain_text.data).filter fun r => r.all Char.isDigit).length

/-- The numbers tier (≥10: 10, ≥5: 6, fewer: 0). -/
def numbers_part (numbers : Nat) : Nat × List String :=
  if numbers ≥ 10 then (10, ["✓ " ++ toString numbers ++ " Zahlen/Fakten"])
  else if numbers ≥ 5 then (6, [])
  else (0, [])

/-- The long-word tier on `plain_text.split()` words longer than 12
characters (≥20: 10, ≥10: 6). -/
def complex_words_part (complex_words : Nat) : Nat × List String :=
  if complex_words ≥ 20 then (10, ["✓ Fachliche Tiefe erkennbar"])
  else if complex_words ≥ 10 then (6, [])
  else (0, [])

/-- The paragraphs of the quality category: pieces of the `"\n\n"` split
whose stripped length exceeds 50 (the pieces themselves are kept
unstripped). -/
def quality_paragraphs (plain_text : String) : List String :=
  (py_split_on plain_text "\n\n").filter fun p => (py_strip p).data.length > 50

/-- The paragraph-count tier (≥8: 10, ≥5: 6). -/
def paragraph_count_part (paragraph_count : Nat) : Nat × List String :=
  if paragraph_count ≥ 8 then
    (10, ["✓ " ++ toString paragraph_count ++ " Absätze (gute Gliederung)"])
  else if paragraph_count ≥ 5 then (6, [])
  else (0, [])

/-- The uniqueness tier on `len(set(words)) / len(words)` (≥0.5: 20,
≥0.4: 15, else 10; 0 points when there is no word). The detail formats the
ratio as a percentage with one decimal (`f"{uniqueness:.1%}"`). -/
def uniqueness_part (words : List String) : Nat × List String :=
  if !words.isEmpty then
    let uniqueness : Frac := (words.dedup.length : Frac) / (words.length : Frac)
    if uniqueness ≥ 0.5 then
      (20, ["✓ Hohe Wort-Diversität (" ++ fmt1 (uniqueness * 100) ++ "%)"])
    else if uniqueness ≥ 0.4 then (15, [])
    else (10, [])
  else (0, [])

/-- The topic-coverage tier against the benchmark's first 10 common topics
(substring containment of the topic, as given, in the lowercased text);
nothing when the benchmark has no topics. -/
def topics_part (plain_text : String) (common_topics : List String) : Nat × List String :=
  if !common_topics.isEmpty then
    let text_lower := py_lower plain_text
    let capped := min 10 common_topics.length
    let covered_topics := ((common_topics.take 10).filter fun topic =>
      py_contains text_lower topic).length
    let topic_coverage : Frac := (covered_topics : Frac) / (capped : Frac)
    if topic_coverage ≥ 0.7 then
      (10, ["✓ " ++ toString covered_topics ++ "/" ++ toString capped ++
        " wichtige Themen abgedeckt"])
    else if topic_coverage ≥ 0.5 then (7, [])
    else (4, [])
  else (0, [])

/-- ContentScorer._score_content_quality. -/
def score_content_quality (plain_text : String) (competitor_data : CompetitorData) :
    CatResult :=
  let words := py_split_ws plain_text
  let word_count := words.length
  let target_word_count := competitor_data.recommended_word_count.getD 1000
  let a := length_part word_count target_word_count
  let b := numbers_part (count_numbers plain_text)
  let c := complex_words_part ((words.filter fun w => w.data.length > 12).length)
  let d := paragraph_count_part (quality_paragraphs plain_text).length
  let e := uniqueness_part words
  let f := topics_part plain_text (competitor_data.common_topics.getD [])
  mk_cat (a.1 + b.1 + c.1 + d.1 + e.1 + f.1)
    (a.2 ++ b.2 ++ c.2 ++ d.2 ++ e.2 ++ f.2)

/-! ### Category 4: technical SEO -/

/-- The title block: length tier (50–60: 20, 40–70: 15, else 5) plus 10 when
the keyword occurs in the title; nothing without a title tag. -/
def title_part (title : Option String) (keyword : String) : Nat × List String :=
  match title with
  | some title =>
    let title_len := title.data.length
    let lenpart : Nat × List String :=
      if 50 ≤ title_len ∧ title_len ≤ 60 then
        (20, ["✓ Title optimal (" ++ toString title_len ++ " Zeichen)"])
      else if 40 ≤ title_len ∧ title_len ≤ 70 then
        (15, ["⚠ Title akzeptabel (" ++ toString title_len ++ " Zeichen)"])
      else
        (5, ["✗ Title-Länge suboptimal (" ++ toString title_len ++ " Zeichen)"])
    let kwpart : Nat × List String :=
      if py_contains (py_lower title) (py_lower keyword) then
        (10, ["✓ Keyword im Title"])
      else (0, [])
    (lenpart.1 + kwpart.1, lenpart.2 ++ kwpart.2)
  | none => (0, ["✗ Kein Title-Tag"])

/-- The meta-description block (`meta_desc and meta_desc.get('content')`:
a missing tag, a missing attribute and an empty content all fall to the
else-branch, modelled by `Option String` with a non-emptiness test). -/
def description_part (meta_description : Option String) (keyword : String) :
    Nat × List String :=
  match meta_description with
  | some desc =>
    if desc.data.isEmpty then (0, ["✗ Keine Meta-Description"])
    else
      let desc_len := desc.data.length
      let lenpart : Nat × List String :=
        if 140 ≤ desc_len ∧ desc_len ≤ 160 then
          (20, ["✓ Meta-Description optimal (" ++ toString desc_len ++ " Zeichen)"])
        else if 120 ≤ desc_len ∧ desc_len ≤ 180 then
          (15, ["⚠ Meta-Description akzeptabel (" ++ toString desc_len ++ " Zeichen)"])
        else (5, [])
      let kwpart : Nat × List String :=
        if py_contains (py_lower desc) (py_lower keyword) then
          (10, ["✓ Keyword in Meta-Description"])
        else (0, [])
      (lenpart.1 + kwpart.1, lenpart.2 ++ kwpart.2)
  | none => (0, ["✗ Keine Meta-Description"])

/-- The alt-text tier over the images (ratio ≥0.9: 25, ≥0.7: 18, ≥0.5: 10,
else 5; nothing without an image). -/
def alt_part (img_has_alt : List Bool) : Nat × List String :=
  if !img_has_alt.isEmpty then
    let images_with_alt := (img_has_alt.filter id).length
    let alt_ratio : Frac := (images_with_alt : Frac) / (img_has_alt.length : Frac)
    if alt_ratio ≥ 0.9 then
      (25, ["✓ " ++ toString images_with_alt ++ "/" ++ toString img_has_alt.length ++
        " Bilder mit Alt-Tags"])
    else if alt_ratio ≥ 0.7 then (18, [])
    else if alt_ratio ≥ 0.5 then (10, [])
    else
      (5, ["✗ Nur " ++ toString images_with_alt ++ "/" ++ toString img_has_alt.length ++
        " Bilder mit Alt-Tags"])
  else (0, [])

/-- The semantic-HTML5 tier (≥2 semantic tags: 15, ≥1: 10). -/
def semantic_part (semantic_tag_count : Nat) : Nat × List String :=
  if semantic_tag_count ≥ 2 then (15, ["✓ Semantisches HTML5"])
  else if semantic_tag_count ≥ 1 then (10, [])
  else (0, [])

/-- ContentScorer._score_technical_seo. -/
def score_technical_seo (doc : Doc) (keyword : String) : CatResult :=
  let a := title_part doc.title keyword
  let b := description_part doc.meta_description keyword
  let c := alt_part doc.img_has_alt
  let d := semantic_part doc.semantic_tag_count
  mk_cat (a.1 + b.1 + c.1 + d.1) (a.2 ++ b.2 ++ c.2 ++ d.2)

/-! ### Category 5: engagement -/

/-- The call-to-action patterns (the word between the `\b` anchors of each
regex; `"mehr erfahren"` contains a space, matched literally). -/
def cta_patterns : List String :=
  ["jetzt", "hier", "mehr erfahren", "kaufen", "bestellen", "kontakt",
   "anfrage", "kostenlos"]

/-- Whether the character after the match is a word character (no `\b`
boundary there). -/
def head_is_word_char : List Char → Bool
  | [] => false
  | c :: _ => is_word_char c

/-- `re.search(r'\b' + pat + r'\b', t)` for a non-empty pattern that starts
and ends with a word character: an occurrence whose neighbours (when
present) are non-word characters. `prev_word` says whether the character
before the current suffix is a word character. -/
def re_search_word_boundary_aux (pat : List Char) : List Char → Bool → Bool
  | [], _ => false
  | c :: cs, prev_word =>
    (!prev_word && pat.isPrefixOf (c :: cs) &&
      !head_is_word_char ((c :: cs).drop pat.length)) ||
    re_search_word_boundary_aux pat cs (is_word_char c)

def re_search_word_boundary (t : List Char) (pat : List Char) : Bool :=
  re_search_word_boundary_aux pat t false

/-- The call-to-action tier: the number of patterns that match the lowercased
raw text (≥3: 40, ≥1: 25). -/
def cta_part (text : String) : Nat × List String :=
  let text_lower := py_lower text
  let cta_count := (cta_patterns.filter fun pat =>
    re_search_word_boundary text_lower.data pat.data).length
  if cta_count ≥ 3 then (40, ["✓ " ++ toString cta_count ++ " Call-to-Actions"])
  else if cta_count ≥ 1 then
    (25, ["⚠ " ++ toString cta_count ++ " Call-to-Actions (mehr empfohlen)"])
  else (0, [])

/-- The image tier (≥3: 20, ≥1: 10). -/
def images_part (images : Nat) : Nat × List String :=
  if images ≥ 3 then (20, ["✓ " ++ toString images ++ " Bilder"])
  else if images ≥ 1 then (10, [])
  else (0, [])

/-- The video bonus (≥1 video/iframe: 10). -/
def videos_part (videos : Nat) : Nat × List String :=
  if videos ≥ 1 then (10, ["✓ " ++ toString videos ++ " Video(s)"])
  else (0, [])

/-- The link tier (≥5: 20, ≥2: 12). -/
def links_part (links : Nat) : Nat × List String :=
  if links ≥ 5 then (20, ["✓ " ++ toString links ++ " Links"])
  else if links ≥ 2 then (12, [])
  else (0, [])

/-- The interactive-elements bonus (any button or form: 10). -/
def interactive_part (buttons forms : Nat) : Nat × List String :=
  if buttons + forms ≥ 1 then (10, ["✓ Interaktive Elemente vorhanden"])
  else (0, [])

/-- ContentScorer._score_engagement. -/
def score_engagement (doc : Doc) : CatResult :=
  let a := cta_part doc.text
  let b := images_part doc.img_has_alt.length
  let c := videos_part doc.video_count
  let d := links_part doc.link_count
  let e := interactive_part doc.button_count doc.form_count
  mk_cat (a.1 + b.1 + c.1 + d.1 + e.1) (a.2 ++ b.2 ++ c.2 ++ d.2 ++ e.2)

/-! ### The total -/

/-- The default weights of the scoring configuration
(`config.get("scoring.weights", {...})`). -/
def weight_keyword_optimization : Frac := 0.20

def weight_structure_readability : Frac := 0.25

def weight_content_quality : Frac := 0.30

def weight_technical_seo : Frac := 0.15

def weight_engagement : Frac := 0.10

/-- ContentScorer._get_grade (applied to the unrounded total, as in the
source). -/
def get_grade (score : Frac) : String :=
  if score ≥ 90 then "A+ (Exzellent)"
  else if score ≥ 85 then "A (Sehr gut)"
  else if score ≥ 75 then "B (Gut)"
  else if score ≥ 65 then "C (Befriedigend)"
  else if score ≥ 50 then "D (Ausreichend)"
  else "F (Ungenügend)"

/-- The result dictionary ContentScorer.score returns. -/
structure ScoreResult where
  total_score : Frac
  keyword_optimization : CatResult
  structure_readability : CatResult
  content_quality : CatResult
  technical_seo : CatResult
  engagement : CatResult
  grade : String
deriving DecidableEq, Repr

/-- ContentScorer.score under the default weight configuration. -/
def content_score (doc : Doc) (keyword : String) (competitor_data : CompetitorData) :
    ScoreResult :=
  let keyword_score := score_keyword_optimization doc keyword
  let structure_score := score_structure_readability doc
  let quality_score := score_content_quality doc.plain_text competitor_data
  let technical_score := score_technical_seo doc keyword
  let engagement_score := score_engagement doc
  let total_score : Frac :=
    (keyword_score.score : Frac) * weight_keyword_optimization +
    (structure_score.score : Frac) * weight_structure_readability +
    (quality_score.score : Frac) * weight_content_quality +
    (technical_score.score : Frac) * weight_technical_seo +
    (engagement_score.score : Frac) * weight_engagement
  { total_score := round2_frac total_score
    keyword_optimization := keyword_score
    structure_readability := structure_score
    content_quality := quality_score
    technical_seo := technical_score
    engagement := engagement_score
    grade := get_grade total_score }

/-- Whether a detail string carries the deficient (`✗`) or borderline (`⚠`)
marker (`detail.startswith('✗') or detail.startswith('⚠')`). -/
def detail_is_marked (detail : String) : Bool :=
  py_starts_with detail "✗" || py_starts_with detail "⚠"

/-- The categories in the iteration order of
ContentScorer.get_improvement_suggestions. -/
def categories (r : ScoreResult) : List CatResult :=
  [r.keyword_optimization, r.structure_readability, r.content_quality,
   r.technical_seo, r.engagement]

/-- ContentScorer.get_improvement_suggestions: from every category whose
percentage is below 70, the details that start with `✗` or `⚠`, in category
order then detail order. -/
def get_improvement_suggestions (score_result : ScoreResult) : List String :=
  (categories score_result).flatMap fun cat_data =>
    if cat_data.percentage < 70 then cat_data.details.filter detail_is_marked
    else []

/-! ## The optimization loop (src/main.py, SEOContentGenerator.generate_content)

Phase 4 of generate_content: starting from the draft and its score, while
`current_score < target_score` and `iteration <= max_iterations`, derive
suggestions, request a revision (`text_generator.optimize`, the external
revision capability — a parameter here, as is the scorer), rescore it; a
revision that does not improve the score breaks out of the loop, anything
else is adopted. The loop is generic in the text type `T` and the score
record type `A` with `val` projecting the comparable score
(`score_result['total_score']`), so that both the real scorer and synthetic
instances can drive it. -/

structure LoopState (T A : Type) where
  optimized_text : T
  score_result : A
  current_score : Frac
  iteration : Nat

/-- The `while` loop of Phase 4.  In the break branch the source has already
assigned the freshly revised text to `optimized_text` and its score result to
`score_result`; only `current_score` still holds the previous score. -/
def optimize_go {T A : Type} (score_of : T → A) (val : A → Frac) (revise : T → A → T)
    (target_score : Frac) (max_iterations : Nat)
    (optimized_text : T) (score_result : A) (current_score : Frac) (iteration : Nat) :
    LoopState T A :=
  if h : current_score < target_score ∧ iteration ≤ max_iterations then
    let revised := revise optimized_text score_result
    let new_result := score_of revised
    let new_score := val new_result
    if new_score ≤ current_score then
      ⟨revised, new_result, current_score, iteration⟩
    else
      optimize_go score_of val revise target_score max_iterations
        revised new_result new_score (iteration + 1)
  else
    ⟨optimized_text, score_result, current_score, iteration⟩
termination_by max_iterations + 1 - iteration
decreasing_by omega

/-- The terminal output of generate_content: the final text (used by every
later phase), the final score breakdown, `final_score = current_score` and
`iterations = iteration - 1`. -/
structure OptResult (T A : Type) where
  final_text : T
  score_breakdown : A
  final_score : Frac
  iterations : Nat

/-- Phases 3–4 of generate_content: score the draft, run the loop from
`iteration = 1`. -/
def generate_content_loop {T A : Type} (score_of : T → A) (val : A → Frac)
    (revise : T → A → T) (target_score : Frac) (max_iterations : Nat) (draft : T) :
    OptResult T A :=
  let draft_result := score_of draft
  let s := optimize_go score_of val revise target_score max_iterations
    draft draft_result (val draft_result) 1
  ⟨s.optimized_text, s.score_result, s.current_score, s.iteration - 1⟩

/-- `optimize_go` with two ghost counters: how many revisions were requested
and rescored, and how many of them strictly improved the score. The loop
itself is unchanged (`loop_counts_agree` below). -/
def optimize_go_counting {T A : Type} (score_of : T → A) (val : A → Frac)
    (revise : T → A → T) (target_score : Frac) (max_iterations : Nat)
    (optimized_text : T) (score_result : A) (current_score : Frac) (iteration : Nat)
    (attempted improved : Nat) : LoopState T A × Nat × Nat :=
  if h : current_score < target_score ∧ iteration ≤ max_iterations then
    let revised := revise optimized_text score_result
    let new_result := score_of revised
    let new_score := val new_result
    if new_score ≤ current_score then
      (⟨revised, new_result, current_score, iteration⟩, attempted + 1, improved)
    else
      optimize_go_counting score_of val revise target_score max_iterations
        revised new_result new_score (iteration + 1) (attempted + 1) (improved + 1)
  else
    (⟨optimized_text, score_result, current_score, iteration⟩, attempted, improved)
termination_by max_iterations + 1 - iteration
decreasing_by omega

/-- `generate_content_loop` with the two ghost counters. -/
def generate_content_loop_counting {T A : Type} (score_of : T → A) (val : A → Frac)
    (revise : T → A → T) (target_score : Frac) (max_iterations : Nat) (draft : T) :
    OptResult T A × Nat × Nat :=
  let draft_result := score_of draft
  let s := optimize_go_counting score_of val revise target_score max_iterations
    draft draft_result (val draft_result) 1 0 0
  (⟨s.1.optimized_text, s.1.score_result, s.1.current_score, s.1.iteration - 1⟩,
    s.2.1, s.2.2)

/-- The real scorer on markup-free plain text. -/
def score_plain (keyword : String) (competitor_data : CompetitorData) :
    String → ScoreResult :=
  fun t => content_score (mk_plain_doc t) keyword competitor_data

/-- The loop over the real scorer on markup-free text: the instance
generate_content runs when the draft and every revision are plain text. -/
def run_optimization_plain (keyword : String) (competitor_data : CompetitorData)
    (target_score : Frac) (max_iterations : Nat)
    (revise : String → ScoreResult → String) (draft : String) :
    OptResult String ScoreResult :=
  generate_content_loop (score_plain keyword competitor_data)
    ScoreResult.total_score revise target_score max_iterations draft

/-! ## Concrete inputs for the claims

Plain German-like filler texts built from the tokens `xyz` (the keyword) and
`abc`; the interesting quantities are the token and occurrence counts. -/

/-- 40 tokens, the keyword once: substring density 1/40·100 = 2.50 %. -/
def text_kw40 : String := "xyz" ++ String.join (List.replicate 39 " abc")

/-- 200 tokens, the keyword 3 times: substring density 3/200·100 = 1.50 %
(the spec's worked example: 3 occurrences among 200 tokens). -/
def text_kw200 : String := "xyz xyz xyz" ++ String.join (List.replicate 197 " abc")

/-- 201 tokens, the keyword twice: substring density 200/201 ≈ 0.995 % —
below 1 %, but `round(·, 2)` lifts it to exactly 1.00. -/
def text_kw201 : String := "xyz xyz" ++ String.join (List.replicate 199 " abc")

/-- 300 filler characters, then the keyword: its only occurrence starts at
offset 300 — inside the first 500 characters but not the first 200. -/
def text_pos300 : String := String.mk (List.replicate 300 'a') ++ "xyz"

/-- A two-token text for the empty-keyword claim (7 characters, 2 tokens). -/
def text_two_tokens : String := "abc abc"

/-- The keyword density exactly as the specification defines it — substring
occurrence count of the lowercased keyword in the lowercased text over the
token count, times 100 — without the rounding the code applies before its
tier comparison. Spec-side definition, for comparison with the code. -/
def claim_density (text keyword : String) : ℚ :=
  ((py_count (py_lower text) (py_lower keyword) : ℚ) /
    ((tokenize text).length : ℚ)) * 100

/-- 50 distinct tokens three times each, then `zzz` twice: `zzz` has count 2
and is no stop word, yet is not among the 50 most common tokens. -/
def words_c9 : List String :=
  (((List.range 50).map fun i => "t" ++ toString i).flatMap fun w => [w, w, w]) ++
    ["zzz", "zzz"]

/-- A revision capability that always returns the empty document — its score
(12 points from base tiers) is below any reasonable draft's, so the first
revision already fails to improve. -/
def revise_to_empty : String → ScoreResult → String := fun _ _ => ""

/-- A full run of the real pipeline: keyword `xyz`, empty benchmark, target
75, 5 iterations, drafting `text_kw40` (score 26.25) and revising to `""`
(score 12): the first revision is non-improving. -/
def c1_run : OptResult String ScoreResult :=
  run_optimization_plain "xyz" CompetitorData.empty 75 5 revise_to_empty text_kw40

/-- The same run with the ghost revision counters. -/
def c10_run : OptResult String ScoreResult × Nat × Nat :=
  generate_content_loop_counting (score_plain "xyz" CompetitorData.empty)
    ScoreResult.total_score revise_to_empty 75 5 text_kw40

/-- A synthetic scorer for the spec's worked loop example: the draft scores
60 and every revision adds exactly 5 points. -/
def c4_score_of : Nat → Frac := fun n => ((60 + 5 * n : ℕ) : Frac)

def c4_revise : Nat → Frac → Nat := fun t _ => t + 1

/-- The worked example: target 75, 5 iterations maximum, start at 60, +5 per
revision. -/
def c4_run : OptResult Nat Frac :=
  generate_content_loop c4_score_of id c4_revise 75 5 0

/-! # Theorems

First the homomorphism lemmas showing that `Frac` arithmetic means exactly
rational arithmetic, then helper lemmas, then one theorem per claim. -/

theorem Frac.den_q_pos (x : Frac) : (0 : ℚ) < ((x.den : ℕ) : ℚ) := by
  exact_mod_cast x.den.pos

theorem Frac.den_q_ne (x : Frac) : ((x.den : ℕ) : ℚ) ≠ 0 :=
  ne_of_gt x.den_q_pos

theorem Frac.toRat_mk (n : ℤ) (d : ℕ+) : (Frac.mk n d).toRat = (n : ℚ) / ((d : ℕ) : ℚ) :=
  rfl

theorem Frac.toRat_ofNat (n : ℕ) : (OfNat.ofNat n : Frac).toRat = (n : ℚ) := by
  show ((⟨n, 1⟩ : Frac)).toRat = _
  simp [Frac.toRat]

theorem Frac.toRat_natCast (n : ℕ) : ((n : Frac)).toRat = (n : ℚ) := by
  show ((⟨n, 1⟩ : Frac)).toRat = _
  simp [Frac.toRat]

theorem Frac.toRat_intCast (n : ℤ) : ((n : Frac)).toRat = (n : ℚ) := by
  show ((⟨n, 1⟩ : Frac)).toRat = _
  simp [Frac.toRat]

theorem Frac.toRat_add (x y : Frac) : (x + y).toRat = x.toRat + y.toRat := by
  show (Frac.add x y).toRat = _
  simp only [Frac.add, Frac.toRat, PNat.mul_coe]
  rw [div_add_div _ _ x.den_q_ne y.den_q_ne]
  push_cast
  ring_nf

theorem Frac.toRat_neg (x : Frac) : (-x).toRat = -x.toRat := by
  show (Frac.neg x).toRat = _
  simp [Frac.neg, Frac.toRat, neg_div]

theorem Frac.toRat_sub (x y : Frac) : (x - y).toRat = x.toRat - y.toRat := by
  show (x + -y).toRat = _
  rw [Frac.toRat_add, Frac.toRat_neg, sub_eq_add_neg]

theorem Frac.toRat_mul (x y : Frac) : (x * y).toRat = x.toRat * y.toRat := by
  show (Frac.mul x y).toRat = _
  simp only [Frac.mul, Frac.toRat, PNat.mul_coe]
  push_cast
  rw [div_mul_div_comm]

theorem Frac.toRat_inv (x : Frac) : x.inv.toRat = x.toRat⁻¹ := by
  rcases lt_trichotomy x.num 0 with h | h | h
  · have hx : x.inv = ⟨-(x.den : ℤ), ⟨(-x.num).toNat, by omega⟩⟩ := by
      unfold Frac.inv
      rw [dif_neg (by omega), dif_pos h]
    rw [hx, Frac.toRat_mk, Frac.toRat, inv_div]
    have hnn : (((-x.num).toNat : ℕ) : ℚ) = -(x.num : ℚ) := by
      have h2 : ((-x.num).toNat : ℤ) = -x.num := Int.toNat_of_nonneg (by omega)
      exact_mod_cast h2
    show ((-(x.den : ℤ) : ℤ) : ℚ) / (((-x.num).toNat : ℕ) : ℚ) = _
    rw [hnn]
    push_cast
    rw [neg_div_neg_eq]
  · have hx : x.inv = ⟨0, 1⟩ := by
      unfold Frac.inv
      rw [dif_neg (by omega), dif_neg (by omega)]
    rw [hx, Frac.toRat_mk, Frac.toRat, h]
    simp
  · have hx : x.inv = ⟨(x.den : ℤ), ⟨x.num.toNat, by omega⟩⟩ := by
      unfold Frac.inv
      rw [dif_pos h]
    rw [hx, Frac.toRat_mk, Frac.toRat, inv_div]
    have hnn : ((x.num.toNat : ℕ) : ℚ) = (x.num : ℚ) := by
      have h2 : (x.num.toNat : ℤ) = x.num := Int.toNat_of_nonneg (by omega)
      exact_mod_cast h2
    show (((x.den : ℤ) : ℤ) : ℚ) / ((x.num.toNat : ℕ) : ℚ) = _
    rw [hnn]
    push_cast
    ring_nf

theorem Frac.toRat_div (x y : Frac) : (x / y).toRat = x.toRat / y.toRat := by
  show (x * y.inv).toRat = _
  rw [Frac.toRat_mul, Frac.toRat_inv, div_eq_mul_inv]

theorem Frac.le_iff (x y : Frac) : x ≤ y ↔ x.toRat ≤ y.toRat := by
  show x.num * (y.den : ℤ) ≤ y.num * (x.den : ℤ) ↔ _
  rw [Frac.toRat, Frac.toRat, div_le_div_iff₀ x.den_q_pos y.den_q_pos]
  constructor
  · intro h; exact_mod_cast h
  · intro h; exact_mod_cast h

theorem Frac.lt_iff (x y : Frac) : x < y ↔ x.toRat < y.toRat := by
  show x.num * (y.den : ℤ) < y.num * (x.den : ℤ) ↔ _
  rw [Frac.toRat, Frac.toRat, div_lt_div_iff₀ x.den_q_pos y.den_q_pos]
  constructor
  · intro h; exact_mod_cast h
  · intro h; exact_mod_cast h

theorem Frac.eqv_iff (x y : Frac) : x.eqv y ↔ x.toRat = y.toRat := by
  show x.num * (y.den : ℤ) = y.num * (x.den : ℤ) ↔ _
  rw [Frac.toRat, Frac.toRat, div_eq_div_iff x.den_q_ne y.den_q_ne]
  constructor
  · intro h; exact_mod_cast h
  · intro h; exact_mod_cast h

theorem toRat_py_max (x y : Frac) : (py_max x y).toRat = max x.toRat y.toRat := by
  unfold py_max
  rcases le_total x.toRat y.toRat with h | h
  · rw [if_pos ((Frac.le_iff x y).mpr h), max_eq_right h]
  · by_cases hxy : x ≤ y
    · rw [if_pos hxy]
      have := (Frac.le_iff x y).mp hxy
      rw [max_eq_right this]
    · rw [if_neg hxy, max_eq_left h]

theorem toRat_py_min (x y : Frac) : (py_min x y).toRat = min x.toRat y.toRat := by
  unfold py_min
  rcases le_total x.toRat y.toRat with h | h
  · by_cases hxy : x ≤ y
    · rw [if_pos hxy, min_eq_left h]
    · exact absurd ((Frac.le_iff x y).mpr h) hxy
  · by_cases hxy : x ≤ y
    · rw [if_pos hxy]
      have := (Frac.le_iff x y).mp hxy
      rw [min_eq_left this]
    · rw [if_neg hxy, min_eq_right h]

theorem Frac.floorI_eq (x : Frac) : x.floorI = ⌊x.toRat⌋ := by
  rw [Frac.floorI, Frac.toRat, Rat.floor_intCast_div_natCast]

/-- The decimal literal `0.5 : Frac` means one half. -/
theorem toRat_half : (0.5 : Frac).toRat = 1 / 2 := by
  show (Frac.mk 5 ⟨10, _⟩).toRat = _
  rw [Frac.toRat_mk]
  norm_num

theorem rhe_frac_eq (x : Frac) : rhe_frac x = round_half_even x.toRat := by
  unfold rhe_frac round_half_even
  rw [Frac.floorI_eq]
  have hsub : (x - ((⌊x.toRat⌋ : ℤ) : Frac)).toRat = x.toRat - (⌊x.toRat⌋ : ℚ) := by
    rw [Frac.toRat_sub, Frac.toRat_intCast]
  by_cases h1 : x - ((⌊x.toRat⌋ : ℤ) : Frac) < 0.5
  · have : x.toRat - (⌊x.toRat⌋ : ℚ) < 1 / 2 := by
      have := (Frac.lt_iff _ _).mp h1
      rwa [hsub, toRat_half] at this
    rw [if_pos h1, if_pos this]
  · have h1' : ¬(x.toRat - (⌊x.toRat⌋ : ℚ) < 1 / 2) := by
      intro hq
      exact h1 ((Frac.lt_iff _ _).mpr (by rwa [hsub, toRat_half]))
    rw [if_neg h1, if_neg h1']
    by_cases h2 : (0.5 : Frac) < x - ((⌊x.toRat⌋ : ℤ) : Frac)
    · have : (1 : ℚ) / 2 < x.toRat - (⌊x.toRat⌋ : ℚ) := by
        have := (Frac.lt_iff _ _).mp h2
        rwa [hsub, toRat_half] at this
      rw [if_pos h2, if_pos this]
    · have h2' : ¬((1 : ℚ) / 2 < x.toRat - (⌊x.toRat⌋ : ℚ)) := by
        intro hq
        exact h2 ((Frac.lt_iff _ _).mpr (by rwa [hsub, toRat_half]))
      rw [if_neg h2, if_neg h2']

theorem toRat_round2_frac (x : Frac) : (round2_frac x).toRat = round2 x.toRat := by
  unfold round2_frac round2
  rw [Frac.toRat_mk]
  have hm : (x * 100).toRat = x.toRat * 100 := by
    rw [Frac.toRat_mul, Frac.toRat_ofNat]
    norm_num
  rw [rhe_frac_eq, hm]
  norm_num

/-! ## Properties of rounding -/

theorem round_half_even_ge (a : ℤ) (q : ℚ) (h : (a : ℚ) ≤ q) : a ≤ round_half_even q := by
  have hf : a ≤ ⌊q⌋ := Int.le_floor.mpr h
  simp only [round_half_even]
  split_ifs <;> omega

theorem round_half_even_le (b : ℤ) (q : ℚ) (h : q ≤ (b : ℚ)) : round_half_even q ≤ b := by
  have hf : ⌊q⌋ ≤ b := by
    have h1 : (⌊q⌋ : ℚ) ≤ (b : ℚ) := le_trans (Int.floor_le q) h
    exact_mod_cast h1
  simp only [round_half_even]
  split_ifs with h1 h2 h3
  · exact hf
  · have h3 : (⌊q⌋ : ℚ) < (b : ℚ) := by linarith
    have h4 : ⌊q⌋ < b := by exact_mod_cast h3
    omega
  · exact hf
  · push_neg at h1 h2
    have h4 : (⌊q⌋ : ℚ) < (b : ℚ) := by linarith
    have h5 : ⌊q⌋ < b := by exact_mod_cast h4
    omega

theorem round_half_even_intCast (z : ℤ) : round_half_even (z : ℚ) = z := by
  simp only [round_half_even]
  rw [Int.floor_intCast]
  norm_num

/-- `round(x, 2)` of an integer value is that value (used for percentages:
`round(score / 100 * 100, 2) = score`). -/
theorem round2_natCast (n : ℕ) : round2 (n : ℚ) = n := by
  unfold round2
  have h : (n : ℚ) * 100 = ((n * 100 : ℤ) : ℚ) := by push_cast; ring
  rw [h, round_half_even_intCast]
  push_cast
  ring

theorem round2_nonneg (q : ℚ) (h : 0 ≤ q) : 0 ≤ round2 q := by
  unfold round2
  have h2 : (0 : ℤ) ≤ round_half_even (q * 100) :=
    round_half_even_ge 0 _ (by push_cast; linarith)
  positivity

theorem round2_le_hundred (q : ℚ) (h : q ≤ 100) : round2 q ≤ 100 := by
  unfold round2
  have h2 : round_half_even (q * 100) ≤ 10000 :=
    round_half_even_le 10000 _ (by push_cast; linarith)
  have h3 : (round_half_even (q * 100) : ℚ) ≤ 10000 := by exact_mod_cast h2
  linarith

/-! ## Per-category score bounds -/

theorem mk_cat_score (s : Nat) (d : List String) : (mk_cat s d).score = s := rfl

theorem mk_cat_details (s : Nat) (d : List String) : (mk_cat s d).details = d := rfl

/-- Every category reports `percentage = round(score / 100 * 100, 2)`, which
is exactly the score. -/
theorem mk_cat_percentage (s : Nat) (d : List String) :
    (mk_cat s d).percentage.toRat = (s : ℚ) := by
  show (round2_frac ((s : Frac) / (100 : Frac) * 100)).toRat = _
  rw [toRat_round2_frac, Frac.toRat_mul, Frac.toRat_div, Frac.toRat_natCast,
    Frac.toRat_ofNat]
  rw [div_mul_cancel₀ _ (by norm_num : ((100 : ℕ) : ℚ) ≠ 0)]
  exact round2_natCast s

theorem density_part_le (d : Frac) : (density_part d).1 ≤ 40 := by
  simp only [density_part]
  split_ifs <;> norm_num

theorem first_paragraph_part_le (p k : String) : (first_paragraph_part p k).1 ≤ 10 := by
  simp only [first_paragraph_part]
  split_ifs <;> norm_num

theorem h1_part_le (h : List String) (k : String) : (h1_part h k).1 ≤ 10 := by
  simp only [h1_part]
  split_ifs <;> norm_num

theorem h2_part_le (h : List String) (k : String) : (h2_part h k).1 ≤ 10 := by
  simp only [h2_part]
  split_ifs <;> norm_num

theorem lsi_part_le (n : Nat) : (lsi_part n).1 ≤ 30 := by
  simp only [lsi_part]
  split_ifs <;> norm_num

/-- The keyword-optimization score never exceeds its `max_score` of 100. -/
theorem score_keyword_optimization_le (doc : Doc) (kw : String) :
    (score_keyword_optimization doc kw).score ≤ 100 := by
  simp only [score_keyword_optimization]
  rw [mk_cat_score]
  have h1 := density_part_le (keyword_analyze doc.plain_text kw).main_keyword.density
  have h2 := first_paragraph_part_le doc.plain_text kw
  have h3 := h1_part_le doc.h1_texts kw
  have h4 := h2_part_le doc.h2_texts kw
  have h5 := lsi_part_le (keyword_analyze doc.plain_text kw).related_keywords.length
  omega

theorem h1_count_part_le (n : Nat) : (h1_count_part n).1 ≤ 15 := by
  simp only [h1_count_part]
  split_ifs <;> norm_num

theorem h2_count_part_le (n : Nat) : (h2_count_part n).1 ≤ 15 := by
  simp only [h2_count_part]
  split_ifs <;> norm_num

theorem h3_count_part_le (n : Nat) : (h3_count_part n).1 ≤ 10 := by
  simp only [h3_count_part]
  split_ifs <;> norm_num

theorem flesch_part_le (x : Frac) : (flesch_part x).1 ≤ 20 := by
  simp only [flesch_part]
  split_ifs <;> norm_num

theorem sentence_length_part_le (x : Frac) : (sentence_length_part x).1 ≤ 10 := by
  simp only [sentence_length_part]
  split_ifs <;> norm_num

theorem paragraph_length_part_le (p : String) : (paragraph_length_part p).1 ≤ 5 := by
  simp only [paragraph_length_part]
  split_ifs <;> norm_num

theorem list_part_le (n : Nat) : (list_part n).1 ≤ 15 := by
  simp only [list_part]
  split_ifs <;> norm_num

theorem bold_part_le (n : Nat) : (bold_part n).1 ≤ 10 := by
  simp only [bold_part]
  split_ifs <;> norm_num

/-- The structure-and-readability score never exceeds 100. -/
theorem score_structure_readability_le (doc : Doc) :
    (score_structure_readability doc).score ≤ 100 := by
  simp only [score_structure_readability]
  rw [mk_cat_score]
  have h1 := h1_count_part_le doc.h1_texts.length
  have h2 := h2_count_part_le doc.h2_texts.length
  have h3 := h3_count_part_le doc.h3_count
  have h4 := flesch_part_le (readability_check doc.plain_text).flesch_reading_ease
  have h5 := sentence_length_part_le (readability_check doc.plain_text).avg_sentence_length
  have h6 := paragraph_length_part_le doc.plain_text
  have h7 := list_part_le (doc.ul_count + doc.ol_count)
  have h8 := bold_part_le doc.bold_count
  omega

theorem length_part_le (w t : Nat) : (length_part w t).1 ≤ 40 := by
  simp only [length_part]
  split_ifs <;> norm_num

theorem numbers_part_le (n : Nat) : (numbers_part n).1 ≤ 10 := by
  simp only [numbers_part]
  split_ifs <;> norm_num

theorem complex_words_part_le (n : Nat) : (complex_words_part n).1 ≤ 10 := by
  simp only [complex_words_part]
  split_ifs <;> norm_num

theorem paragraph_count_part_le (n : Nat) : (paragraph_count_part n).1 ≤ 10 := by
  simp only [paragraph_count_part]
  split_ifs <;> norm_num

theorem uniqueness_part_le (ws : List String) : (uniqueness_part ws).1 ≤ 20 := by
  simp only [uniqueness_part]
  split_ifs <;> norm_num

theorem topics_part_le (p : String) (ts : List String) : (topics_part p ts).1 ≤ 10 := by
  simp only [topics_part]
  split_ifs <;> norm_num

/-- The content-quality score never exceeds 100. -/
theorem score_content_quality_le (p : String) (cd : CompetitorData) :
    (score_content_quality p cd).score ≤ 100 := by
  simp only [score_content_quality]
  rw [mk_cat_score]
  have h1 := length_part_le (py_split_ws p).length (cd.recommended_word_count.getD 1000)
  have h2 := numbers_part_le (count_numbers p)
  have h3 := complex_words_part_le ((py_split_ws p).filter fun w => w.data.length > 12).length
  have h4 := paragraph_count_part_le (quality_paragraphs p).length
  have h5 := uniqueness_part_le (py_split_ws p)
  have h6 := topics_part_le p (cd.common_topics.getD [])
  omega

theorem title_part_le (t : Option String) (k : String) : (title_part t k).1 ≤ 30 := by
  simp only [title_part]
  rcases t with _ | t
  · norm_num
  · simp only
    split_ifs <;> norm_num

theorem description_part_le (d : Option String) (k : String) :
    (description_part d k).1 ≤ 30 := by
  simp only [description_part]
  rcases d with _ | d
  · norm_num
  · simp only
    split_ifs <;> norm_num

theorem alt_part_le (l : List Bool) : (alt_part l).1 ≤ 25 := by
  simp only [alt_part]
  split_ifs <;> norm_num

theorem semantic_part_le (n : Nat) : (semantic_part n).1 ≤ 15 := by
  simp only [semantic_part]
  split_ifs <;> norm_num

/-- The technical-SEO score never exceeds 100. -/
theorem score_technical_seo_le (doc : Doc) (kw : String) :
    (score_technical_seo doc kw).score ≤ 100 := by
  simp only [score_technical_seo]
  rw [mk_cat_score]
  have h1 := title_part_le doc.title kw
  have h2 := description_part_le doc.meta_description kw
  have h3 := alt_part_le doc.img_has_alt
  have h4 := semantic_part_le doc.semantic_tag_count
  omega

theorem cta_part_le (t : String) : (cta_part t).1 ≤ 40 := by
  simp only [cta_part]
  split_ifs <;> norm_num

theorem images_part_le (n : Nat) : (images_part n).1 ≤ 20 := by
  simp only [images_part]
  split_ifs <;> norm_num

theorem videos_part_le (n : Nat) : (videos_part n).1 ≤ 10 := by
  simp only [videos_part]
  split_ifs <;> norm_num

theorem links_part_le (n : Nat) : (links_part n).1 ≤ 20 := by
  simp only [links_part]
  split_ifs <;> norm_num

theorem interactive_part_le (b f : Nat) : (interactive_part b f).1 ≤ 10 := by
  simp only [interactive_part]
  split_ifs <;> norm_num

/-- The engagement score never exceeds 100. -/
theorem score_engagement_le (doc : Doc) : (score_engagement doc).score ≤ 100 := by
  simp only [score_engagement]
  rw [mk_cat_score]
  have h1 := cta_part_le doc.text
  have h2 := images_part_le doc.img_has_alt.length
  have h3 := videos_part_le doc.video_count
  have h4 := links_part_le doc.link_count
  have h5 := interactive_part_le doc.button_count doc.form_count
  omega

/-! ## The total score -/

theorem toRat_weight_keyword : weight_keyword_optimization.toRat = 1 / 5 := by
  norm_num [weight_keyword_optimization, OfScientific.ofScientific,
    instFracOfScientific, Frac.toRat]

theorem toRat_weight_structure : weight_structure_readability.toRat = 1 / 4 := by
  norm_num [weight_structure_readability, OfScientific.ofScientific,
    instFracOfScientific, Frac.toRat]

theorem toRat_weight_quality : weight_content_quality.toRat = 3 / 10 := by
  norm_num [weight_content_quality, OfScientific.ofScientific,
    instFracOfScientific, Frac.toRat]

theorem toRat_weight_technical : weight_technical_seo.toRat = 3 / 20 := by
  norm_num [weight_technical_seo, OfScientific.ofScientific,
    instFracOfScientific, Frac.toRat]

theorem toRat_weight_engagement : weight_engagement.toRat = 1 / 10 := by
  norm_num [weight_engagement, OfScientific.ofScientific,
    instFracOfScientific, Frac.toRat]

theorem content_score_keyword (doc : Doc) (kw : String) (cd : CompetitorData) :
    (content_score doc kw cd).keyword_optimization = score_keyword_optimization doc kw :=
  rfl

theorem content_score_structure (doc : Doc) (kw : String) (cd : CompetitorData) :
    (content_score doc kw cd).structure_readability = score_structure_readability doc :=
  rfl

theorem content_score_quality (doc : Doc) (kw : String) (cd : CompetitorData) :
    (content_score doc kw cd).content_quality = score_content_quality doc.plain_text cd :=
  rfl

theorem content_score_technical (doc : Doc) (kw : String) (cd : CompetitorData) :
    (content_score doc kw cd).technical_seo = score_technical_seo doc kw :=
  rfl

theorem content_score_engagement (doc : Doc) (kw : String) (cd : CompetitorData) :
    (content_score doc kw cd).engagement = score_engagement doc :=
  rfl

theorem content_score_total (doc : Doc) (kw : String) (cd : CompetitorData) :
    (content_score doc kw cd).total_score = round2_frac
      (((score_keyword_optimization doc kw).score : Frac) * weight_keyword_optimization +
       ((score_structure_readability doc).score : Frac) * weight_structure_readability +
       ((score_content_quality doc.plain_text cd).score : Frac) * weight_content_quality +
       ((score_technical_seo doc kw).score : Frac) * weight_technical_seo +
       ((score_engagement doc).score : Frac) * weight_engagement) :=
  rfl

/-- The weighted pre-rounding total, in `ℚ`. -/
theorem content_score_total_toRat (doc : Doc) (kw : String) (cd : CompetitorData) :
    (content_score doc kw cd).total_score.toRat = round2
      (((score_keyword_optimization doc kw).score : ℚ) * (1 / 5) +
       ((score_structure_readability doc).score : ℚ) * (1 / 4) +
       ((score_content_quality doc.plain_text cd).score : ℚ) * (3 / 10) +
       ((score_technical_seo doc kw).score : ℚ) * (3 / 20) +
       ((score_engagement doc).score : ℚ) * (1 / 10)) := by
  rw [content_score_total, toRat_round2_frac]
  rw [Frac.toRat_add, Frac.toRat_add, Frac.toRat_add, Frac.toRat_add,
    Frac.toRat_mul, Frac.toRat_mul, Frac.toRat_mul, Frac.toRat_mul, Frac.toRat_mul,
    Frac.toRat_natCast, Frac.toRat_natCast, Frac.toRat_natCast, Frac.toRat_natCast,
    Frac.toRat_natCast, toRat_weight_keyword, toRat_weight_structure,
    toRat_weight_quality, toRat_weight_technical, toRat_weight_engagement]

/-- Claim C2: for every text (here: every parsed document), keyword and
competitor data, the `ScoreResult` of `ContentScorer.score` satisfies
`total_score = round(Σ category_score × category_weight, 2)` under the
default weights, the default weights sum to 1, every category sub-score lies
in [0, 100], and the total lies in [0, 100]. -/
theorem claim_C2 :
    (weight_keyword_optimization.toRat + weight_structure_readability.toRat +
      weight_content_quality.toRat + weight_technical_seo.toRat +
      weight_engagement.toRat = 1) ∧
    ∀ (doc : Doc) (keyword : String) (cd : CompetitorData),
      ((content_score doc keyword cd).keyword_optimization.score ≤ 100 ∧
       (content_score doc keyword cd).structure_readability.score ≤ 100 ∧
       (content_score doc keyword cd).content_quality.score ≤ 100 ∧
       (content_score doc keyword cd).technical_seo.score ≤ 100 ∧
       (content_score doc keyword cd).engagement.score ≤ 100) ∧
      (content_score doc keyword cd).total_score.toRat = round2
        (((content_score doc keyword cd).keyword_optimization.score : ℚ) *
            weight_keyword_optimization.toRat +
         ((content_score doc keyword cd).structure_readability.score : ℚ) *
            weight_structure_readability.toRat +
         ((content_score doc keyword cd).content_quality.score : ℚ) *
            weight_content_quality.toRat +
         ((content_score doc keyword cd).technical_seo.score : ℚ) *
            weight_technical_seo.toRat +
         ((content_score doc keyword cd).engagement.score : ℚ) *
            weight_engagement.toRat) ∧
      0 ≤ (content_score doc keyword cd).total_score.toRat ∧
      (content_score doc keyword cd).total_score.toRat ≤ 100 := by
  constructor
  · rw [toRat_weight_keyword, toRat_weight_structure, toRat_weight_quality,
      toRat_weight_technical, toRat_weight_engagement]
    norm_num
  intro doc keyword cd
  have b1 := score_keyword_optimization_le doc keyword
  have b2 := score_structure_readability_le doc
  have b3 := score_content_quality_le doc.plain_text cd
  have b4 := score_technical_seo_le doc keyword
  have b5 := score_engagement_le doc
  have q1 : ((score_keyword_optimization doc keyword).score : ℚ) ≤ 100 := by
    exact_mod_cast b1
  have q2 : ((score_structure_readability doc).score : ℚ) ≤ 100 := by exact_mod_cast b2
  have q3 : ((score_content_quality doc.plain_text cd).score : ℚ) ≤ 100 := by
    exact_mod_cast b3
  have q4 : ((score_technical_seo doc keyword).score : ℚ) ≤ 100 := by exact_mod_cast b4
  have q5 : ((score_engagement doc).score : ℚ) ≤ 100 := by exact_mod_cast b5
  have n1 : (0 : ℚ) ≤ ((score_keyword_optimization doc keyword).score : ℚ) :=
    Nat.cast_nonneg _
  have n2 : (0 : ℚ) ≤ ((score_structure_readability doc).score : ℚ) := Nat.cast_nonneg _
  have n3 : (0 : ℚ) ≤ ((score_content_quality doc.plain_text cd).score : ℚ) :=
    Nat.cast_nonneg _
  have n4 : (0 : ℚ) ≤ ((score_technical_seo doc keyword).score : ℚ) := Nat.cast_nonneg _
  have n5 : (0 : ℚ) ≤ ((score_engagement doc).score : ℚ) := Nat.cast_nonneg _
  refine ⟨⟨b1, b2, b3, b4, b5⟩, ?_, ?_, ?_⟩
  · rw [content_score_keyword, content_score_structure, content_score_quality,
      content_score_technical, content_score_engagement, content_score_total_toRat,
      toRat_weight_keyword, toRat_weight_structure, toRat_weight_quality,
      toRat_weight_technical, toRat_weight_engagement]
  · rw [content_score_total_toRat]
    exact round2_nonneg _ (by linarith)
  · rw [content_score_total_toRat]
    exact round2_le_hundred _ (by linarith)

/-! ## Behaviour of the optimization loop -/

/-- When the stop condition fails the loop returns its state unchanged. -/
theorem optimize_go_exit {T A : Type} (score_of : T → A) (val : A → Frac)
    (revise : T → A → T) (target_score : Frac) (max_iterations : Nat)
    (t : T) (r : A) (cur : Frac) (iter : Nat)
    (h : ¬(cur < target_score ∧ iter ≤ max_iterations)) :
    optimize_go score_of val revise target_score max_iterations t r cur iter =
      ⟨t, r, cur, iter⟩ := by
  rw [optimize_go]
  rw [dif_neg h]

/-- A non-improving revision breaks out of the loop: the revised text and its
score result are kept (they were already assigned), the reported score stays
the previous one, the iteration counter does not advance. -/
theorem optimize_go_stagnation {T A : Type} (score_of : T → A) (val : A → Frac)
    (revise : T → A → T) (target_score : Frac) (max_iterations : Nat)
    (t : T) (r : A) (cur : Frac) (iter : Nat)
    (hlt : cur < target_score) (hle : iter ≤ max_iterations)
    (hni : val (score_of (revise t r)) ≤ cur) :
    optimize_go score_of val revise target_score max_iterations t r cur iter =
      ⟨revise t r, score_of (revise t r), cur, iter⟩ := by
  rw [optimize_go]
  rw [dif_pos ⟨hlt, hle⟩]
  dsimp only
  rw [if_pos hni]

/-- An improving revision is adopted and the loop advances. -/
theorem optimize_go_step {T A : Type} (score_of : T → A) (val : A → Frac)
    (revise : T → A → T) (target_score : Frac) (max_iterations : Nat)
    (t : T) (r : A) (cur : Frac) (iter : Nat)
    (hlt : cur < target_score) (hle : iter ≤ max_iterations)
    (himp : ¬(val (score_of (revise t r)) ≤ cur)) :
    optimize_go score_of val revise target_score max_iterations t r cur iter =
      optimize_go score_of val revise target_score max_iterations
        (revise t r) (score_of (revise t r)) (val (score_of (revise t r))) (iter + 1) := by
  conv_lhs => rw [optimize_go]
  rw [dif_pos ⟨hlt, hle⟩]
  dsimp only
  rw [if_neg himp]

theorem Frac.not_le {x y : Frac} : ¬(x ≤ y) ↔ y < x := by
  rw [Frac.le_iff, Frac.lt_iff]
  constructor
  · exact fun h => lt_of_not_le h
  · exact fun h h2 => absurd h2 (not_le_of_lt h)

theorem Frac.not_lt {x y : Frac} : ¬(x < y) ↔ y ≤ x := by
  rw [Frac.lt_iff, Frac.le_iff]
  constructor
  · exact fun h => le_of_not_lt h
  · exact fun h h2 => absurd h2 (not_lt_of_le h)

theorem Frac.le_refl (x : Frac) : x ≤ x := by
  show x.num * (x.den : ℤ) ≤ x.num * (x.den : ℤ)
  exact Int.le_refl _

/-- With a strictly improving reviser the loop never stagnates: it ends
either at the target or with the iteration counter just past
`max_iterations`. Stated over a fuel bound for the induction. -/
theorem optimize_go_improving_aux {T A : Type} (score_of : T → A) (val : A → Frac)
    (revise : T → A → T) (target_score : Frac) (max_iterations : Nat)
    (H : ∀ (t : T) (a : A), val a < val (score_of (revise t a))) :
    ∀ (fuel : Nat) (t : T) (r : A) (iter : Nat),
      iter ≤ max_iterations + 1 → max_iterations + 1 - iter ≤ fuel →
      target_score ≤ (optimize_go score_of val revise target_score max_iterations
          t r (val r) iter).current_score ∨
        (optimize_go score_of val revise target_score max_iterations
          t r (val r) iter).iteration = max_iterations + 1 := by
  intro fuel
  induction fuel with
  | zero =>
    intro t r iter hub hfuel
    have hiter : iter = max_iterations + 1 := by omega
    rw [optimize_go_exit _ _ _ _ _ _ _ _ _ (by omega)]
    exact Or.inr hiter
  | succ n ih =>
    intro t r iter hub hfuel
    by_cases hstop : val r < target_score ∧ iter ≤ max_iterations
    · have himp : ¬(val (score_of (revise t r)) ≤ val r) := Frac.not_le.mpr (H t r)
      rw [optimize_go_step _ _ _ _ _ _ _ _ _ hstop.1 hstop.2 himp]
      exact ih (revise t r) (score_of (revise t r)) (iter + 1) (by omega) (by omega)
    · rw [optimize_go_exit _ _ _ _ _ _ _ _ _ hstop]
      rcases not_and_or.mp hstop with h | h
      · exact Or.inl (Frac.not_lt.mp h)
      · exact Or.inr (by dsimp only; omega)

/-- The ghost-counting loop agrees with the loop, its iteration counter never
decreases, and the improved counter advances exactly with the iteration
counter. -/
theorem optimize_go_counting_agree {T A : Type} (score_of : T → A) (val : A → Frac)
    (revise : T → A → T) (target_score : Frac) (max_iterations : Nat) :
    ∀ (fuel : Nat) (t : T) (r : A) (cur : Frac) (iter attempted improved : Nat),
      max_iterations + 1 - iter ≤ fuel →
      (optimize_go_counting score_of val revise target_score max_iterations
          t r cur iter attempted improved).1 =
        optimize_go score_of val revise target_score max_iterations t r cur iter ∧
      iter ≤ (optimize_go_counting score_of val revise target_score max_iterations
          t r cur iter attempted improved).1.iteration ∧
      (optimize_go_counting score_of val revise target_score max_iterations
          t r cur iter attempted improved).2.2 =
        improved + ((optimize_go_counting score_of val revise target_score max_iterations
          t r cur iter attempted improved).1.iteration - iter) := by
  intro fuel
  induction fuel with
  | zero =>
    intro t r cur iter attempted improved hfuel
    have hstop : ¬(cur < target_score ∧ iter ≤ max_iterations) := by
      rintro ⟨-, h2⟩; omega
    rw [optimize_go_counting, dif_neg hstop,
      optimize_go_exit _ _ _ _ _ _ _ _ _ hstop]
    refine ⟨rfl, ?_, ?_⟩ <;> dsimp only <;> omega
  | succ n ih =>
    intro t r cur iter attempted improved hfuel
    by_cases hstop : cur < target_score ∧ iter ≤ max_iterations
    · rw [optimize_go_counting, dif_pos hstop]
      dsimp only
      by_cases hni : val (score_of (revise t r)) ≤ cur
      · rw [if_pos hni,
          optimize_go_stagnation _ _ _ _ _ _ _ _ _ hstop.1 hstop.2 hni]
        refine ⟨rfl, ?_, ?_⟩ <;> dsimp only <;> omega
      · rw [if_neg hni, optimize_go_step _ _ _ _ _ _ _ _ _ hstop.1 hstop.2 hni]
        obtain ⟨h1, h2, h3⟩ := ih (revise t r) (score_of (revise t r))
          (val (score_of (revise t r))) (iter + 1) (attempted + 1) (improved + 1)
          (by omega)
        refine ⟨h1, by omega, ?_⟩
        rw [h3]
        omega
    · rw [optimize_go_counting, dif_neg hstop,
        optimize_go_exit _ _ _ _ _ _ _ _ _ hstop]
      refine ⟨rfl, ?_, ?_⟩ <;> dsimp only <;> omega

/-- Claim C1 (amended): in every run in which a revision yields
`newScore ≤ currentScore`, the loop stops at that point and keeps the
previous score as the reported score — but the Document it keeps, which all
later phases use and which the result returns, is the non-improving revision
itself (the source assigns `optimized_text` before rescoring), not the
previous text. -/
theorem claim_C1 {T A : Type} (score_of : T → A) (val : A → Frac)
    (revise : T → A → T) (target_score : Frac) (max_iterations : Nat)
    (optimized_text : T) (score_result : A) (current_score : Frac) (iteration : Nat)
    (hlt : current_score < target_score) (hle : iteration ≤ max_iterations)
    (hni : val (score_of (revise optimized_text score_result)) ≤ current_score) :
    optimize_go score_of val revise target_score max_iterations optimized_text
        score_result current_score iteration =
      ⟨revise optimized_text score_result,
       score_of (revise optimized_text score_result), current_score, iteration⟩ :=
  optimize_go_stagnation _ _ _ _ _ _ _ _ _ hlt hle hni

/-- Claim C1 witness: a concrete stagnating step (draft scored 60, revision
scored 50, target 75, first iteration of at most 5). -/
theorem claim_C1_witness :
    optimize_go (fun _ : String => (50 : Frac)) id (fun _ _ => "rev") 75 5
      "draft" (60 : Frac) 60 1 = ⟨"rev", 50, 60, 1⟩ :=
  claim_C1 (fun _ : String => (50 : Frac)) id (fun _ _ => "rev") 75 5
    "draft" (60 : Frac) 60 1 (by decide) (by decide) (by decide)

set_option maxRecDepth 4000 in
/-- Claim C1 counterexample: a full run of the real pipeline (keyword `xyz`,
empty benchmark, target 75, max 5 iterations) whose first revision is
non-improving (the empty text, 12.0, against the draft's 26.25): the loop
stops, but the Document kept in the result is the revision `""`, not the
previous text `text_kw40` — refuting the claim that the previous text is
kept. The reported score is still the previous 26.25 and the reported
iteration count is 0. -/
theorem claim_C1_counterexample :
    (score_plain "xyz" CompetitorData.empty
        (revise_to_empty text_kw40
          (score_plain "xyz" CompetitorData.empty text_kw40))).total_score ≤
      (score_plain "xyz" CompetitorData.empty text_kw40).total_score ∧
    c1_run.final_text = "" ∧
    c1_run.final_text ≠ text_kw40 ∧
    c1_run.iterations = 0 ∧
    c1_run.final_score.eqv 26.25 := by
  have key : optimize_go (score_plain "xyz" CompetitorData.empty)
      ScoreResult.total_score revise_to_empty 75 5 text_kw40
      (score_plain "xyz" CompetitorData.empty text_kw40)
      ((score_plain "xyz" CompetitorData.empty text_kw40).total_score) 1 =
      ⟨"", score_plain "xyz" CompetitorData.empty "",
       (score_plain "xyz" CompetitorData.empty text_kw40).total_score, 1⟩ :=
    optimize_go_stagnation _ _ _ _ _ _ _ _ _ (by decide) (by decide) (by decide)
  have hrun : c1_run = ⟨"", score_plain "xyz" CompetitorData.empty "",
      (score_plain "xyz" CompetitorData.empty text_kw40).total_score, 0⟩ := by
    unfold c1_run run_optimization_plain generate_content_loop
    dsimp only
    rw [key]
    rfl
  refine ⟨by decide, ?_, ?_, ?_, ?_⟩ <;> rw [hrun] <;> decide

/-- Claim C4: termination and counting of the optimization loop.
First conjunct: with a strictly improving reviser the loop runs until the
target is reached or `max_iterations` iterations have elapsed, whichever
comes first. Second conjunct: with a reviser that leaves the score unchanged
the loop performs exactly one revise-and-rescore cycle, adopts nothing, and
stops reporting 0 iterations and the draft's score. Third conjunct: the
spec's worked example — target 75, `max_iterations = 5`, draft scored 60,
each revision adding exactly 5 points — performs 3 iterations and stops with
score 75 (target met, not exhausted). -/
theorem claim_C4 :
    (∀ {T A : Type} (score_of : T → A) (val : A → Frac) (revise : T → A → T)
      (target_score : Frac) (max_iterations : Nat) (draft : T),
      (∀ (t : T) (a : A), val a < val (score_of (revise t a))) →
      target_score ≤ (generate_content_loop score_of val revise target_score
          max_iterations draft).final_score ∨
        (generate_content_loop score_of val revise target_score
          max_iterations draft).iterations = max_iterations) ∧
    (∀ {T A : Type} (score_of : T → A) (val : A → Frac) (revise : T → A → T)
      (target_score : Frac) (max_iterations : Nat) (draft : T),
      (∀ (t : T) (a : A), val (score_of (revise t a)) = val a) →
      val (score_of draft) < target_score → 1 ≤ max_iterations →
      (generate_content_loop_counting score_of val revise target_score
          max_iterations draft).2.1 = 1 ∧
      (generate_content_loop_counting score_of val revise target_score
          max_iterations draft).2.2 = 0 ∧
      (generate_content_loop score_of val revise target_score
          max_iterations draft).iterations = 0 ∧
      (generate_content_loop score_of val revise target_score
          max_iterations draft).final_score = val (score_of draft)) ∧
    (c4_run.iterations = 3 ∧ c4_run.final_score.eqv 75) := by
  refine ⟨?_, ?_, ?_⟩
  · intro T A score_of val revise target_score max_iterations draft H
    unfold generate_content_loop
    dsimp only
    have h := optimize_go_improving_aux score_of val revise target_score
      max_iterations H max_iterations draft (score_of draft) 1 (by omega) (by omega)
    rcases h with h | h
    · exact Or.inl h
    · right
      omega
  · intro T A score_of val revise target_score max_iterations draft hflat hlt hmax
    have hni : val (score_of (revise draft (score_of draft))) ≤ val (score_of draft) := by
      rw [hflat draft (score_of draft)]
      exact Frac.le_refl _
    have hcond : val (score_of draft) < target_score ∧ 1 ≤ max_iterations := ⟨hlt, hmax⟩
    refine ⟨?_, ?_, ?_, ?_⟩
    · unfold generate_content_loop_counting
      dsimp only
      rw [optimize_go_counting, dif_pos hcond]
      dsimp only
      rw [if_pos hni]
    · unfold generate_content_loop_counting
      dsimp only
      rw [optimize_go_counting, dif_pos hcond]
      dsimp only
      rw [if_pos hni]
    · unfold generate_content_loop
      dsimp only
      rw [optimize_go_stagnation _ _ _ _ _ _ _ _ _ hlt hmax hni]
      rfl
    · unfold generate_content_loop
      dsimp only
      rw [optimize_go_stagnation _ _ _ _ _ _ _ _ _ hlt hmax hni]
  · have s1 : optimize_go c4_score_of id c4_revise 75 5
        0 (c4_score_of 0) (id (c4_score_of 0)) 1 =
        optimize_go c4_score_of id c4_revise 75 5
        1 (c4_score_of 1) (id (c4_score_of 1)) 2 :=
      optimize_go_step _ _ _ _ _ _ _ _ _ (by decide) (by decide) (by decide)
    have s2 : optimize_go c4_score_of id c4_revise 75 5
        1 (c4_score_of 1) (id (c4_score_of 1)) 2 =
        optimize_go c4_score_of id c4_revise 75 5
        2 (c4_score_of 2) (id (c4_score_of 2)) 3 :=
      optimize_go_step _ _ _ _ _ _ _ _ _ (by decide) (by decide) (by decide)
    have s3 : optimize_go c4_score_of id c4_revise 75 5
        2 (c4_score_of 2) (id (c4_score_of 2)) 3 =
        optimize_go c4_score_of id c4_revise 75 5
        3 (c4_score_of 3) (id (c4_score_of 3)) 4 :=
      optimize_go_step _ _ _ _ _ _ _ _ _ (by decide) (by decide) (by decide)
    have s4 : optimize_go c4_score_of id c4_revise 75 5
        3 (c4_score_of 3) (id (c4_score_of 3)) 4 =
        ⟨3, c4_score_of 3, id (c4_score_of 3), 4⟩ :=
      optimize_go_exit _ _ _ _ _ _ _ _ _ (by decide)
    have hrun : c4_run = ⟨3, c4_score_of 3, id (c4_score_of 3), 3⟩ := by
      unfold c4_run generate_content_loop
      dsimp only
      rw [s1, s2, s3, s4]
      rfl
    refine ⟨?_, ?_⟩
    · rw [hrun]
    · rw [hrun]
      decide

set_option maxRecDepth 4000 in
/-- Claim C10: the `iterations` field of the result counts exactly the
revision cycles that strictly improved the score, not the revisions
attempted. First conjunct: in every run the reported count equals the
ghost-counted number of adopted (strictly improving) revisions, and the
ghost-counting loop returns the same result. Second conjunct: a concrete run
whose very first revision is non-improving reports 0 iterations although one
revision was requested and rescored. -/
theorem claim_C10 :
    (∀ {T A : Type} (score_of : T → A) (val : A → Frac) (revise : T → A → T)
      (target_score : Frac) (max_iterations : Nat) (draft : T),
      (generate_content_loop_counting score_of val revise target_score
          max_iterations draft).2.2 =
        (generate_content_loop score_of val revise target_score
          max_iterations draft).iterations ∧
      (generate_content_loop_counting score_of val revise target_score
          max_iterations draft).1 =
        generate_content_loop score_of val revise target_score
          max_iterations draft) ∧
    (c10_run.2.1 = 1 ∧ c10_run.2.2 = 0 ∧ c10_run.1.iterations = 0) := by
  constructor
  · intro T A score_of val revise target_score max_iterations draft
    obtain ⟨h1, h2, h3⟩ := optimize_go_counting_agree score_of val revise
      target_score max_iterations max_iterations draft (score_of draft)
      (val (score_of draft)) 1 0 0 (by omega)
    constructor
    · unfold generate_content_loop_counting generate_content_loop
      dsimp only
      rw [h3, h1]
      omega
    · unfold generate_content_loop_counting generate_content_loop
      dsimp only
      rw [h1]
  · have hcond : (score_plain "xyz" CompetitorData.empty text_kw40).total_score < 75 ∧
        1 ≤ 5 := ⟨by decide, by decide⟩
    have key : optimize_go_counting (score_plain "xyz" CompetitorData.empty)
        ScoreResult.total_score revise_to_empty 75 5 text_kw40
        (score_plain "xyz" CompetitorData.empty text_kw40)
        ((score_plain "xyz" CompetitorData.empty text_kw40).total_score) 1 0 0 =
        (⟨"", score_plain "xyz" CompetitorData.empty "",
          (score_plain "xyz" CompetitorData.empty text_kw40).total_score, 1⟩, 1, 0) := by
      rw [optimize_go_counting, dif_pos hcond]
      dsimp only
      rw [if_pos (by decide)]
      rfl
    have hrun : c10_run = (⟨"", score_plain "xyz" CompetitorData.empty "",
        (score_plain "xyz" CompetitorData.empty text_kw40).total_score, 0⟩, 1, 0) := by
      unfold c10_run generate_content_loop_counting
      dsimp only
      rw [key]
      rfl
    refine ⟨?_, ?_, ?_⟩ <;> rw [hrun]

/-! ## Readability: the Flesch formula and the degenerate cases -/

/-- The value of a positive decimal literal. -/
theorem Frac.toRat_sci_true (m e : ℕ) :
    (OfScientific.ofScientific m true e : Frac).toRat = (m : ℚ) / 10 ^ e := by
  show (Frac.mk (m : ℤ) ⟨10 ^ e, _⟩).toRat = _
  rw [Frac.toRat_mk]
  norm_num

theorem py_strip_chars_eq_nil_iff (l : List Char) :
    py_strip_chars l = [] ↔ ∀ c ∈ l, is_space_char c = true := by
  unfold py_strip_chars
  rw [List.reverse_eq_nil_iff, List.dropWhile_eq_nil_iff]
  constructor
  · intro h c hc
    rcases List.mem_append.mp
        ((List.takeWhile_append_dropWhile (p := is_space_char) (l := l)) ▸ hc) with
      h1 | h1
    · exact List.mem_takeWhile_imp h1
    · exact h _ (List.mem_reverse.mpr h1)
  · intro h c hc
    exact h c ((List.dropWhile_sublist is_space_char).mem (List.mem_reverse.mp hc))

theorem split_ws_aux_nil (l : List Char) (h : ∀ c ∈ l, is_space_char c = true) :
    split_ws_aux l [] = [] := by
  induction l with
  | nil => rfl
  | cons c cs ih =>
    have hc := h c (List.mem_cons_self c cs)
    simp only [split_ws_aux, hc, List.isEmpty_nil, if_true]
    exact ih fun d hd => h d (List.mem_cons_of_mem c hd)

/-- When every piece of the sentence split strips to nothing, the
accumulator holds only whitespace and the remaining input only whitespace
and sentence terminators. -/
theorem split_sent_aux_all_space (l : List Char) :
    ∀ (acc : List Char) (b : Bool),
      (∀ s ∈ split_sent_aux l acc b, py_strip_chars s = []) →
      (∀ c ∈ acc, is_space_char c = true) ∧
        ∀ c ∈ l, is_space_char c = true ∨ is_sent_end c = true := by
  induction l with
  | nil =>
    intro acc b h
    have h1 : py_strip_chars acc.reverse = [] := h _ (by simp [split_sent_aux])
    have h2 := (py_strip_chars_eq_nil_iff _).mp h1
    exact ⟨fun c hc => h2 c (List.mem_reverse.mpr hc), by simp⟩
  | cons c cs ih =>
    intro acc b h
    by_cases hce : is_sent_end c = true
    · rcases b with _ | _
      · have hpieces : ∀ s ∈ split_sent_aux cs [] true, py_strip_chars s = [] := by
          intro s hs
          refine h s ?_
          simp only [split_sent_aux, hce, if_true, Bool.false_eq_true]
          exact List.mem_cons_of_mem _ hs
        have hacc : py_strip_chars acc.reverse = [] := by
          refine h _ ?_
          simp only [split_sent_aux, hce, if_true, Bool.false_eq_true]
          exact List.mem_cons_self _ _
        obtain ⟨-, h2⟩ := ih [] true hpieces
        refine ⟨fun d hd => (py_strip_chars_eq_nil_iff _).mp hacc d
          (List.mem_reverse.mpr hd), ?_⟩
        intro d hd
        rcases List.mem_cons.mp hd with rfl | hd
        · exact Or.inr hce
        · exact h2 d hd
      · have hpieces : ∀ s ∈ split_sent_aux cs acc true, py_strip_chars s = [] := by
          intro s hs
          refine h s ?_
          simpa only [split_sent_aux, hce, if_true] using hs
        obtain ⟨h1, h2⟩ := ih acc true hpieces
        refine ⟨h1, ?_⟩
        intro d hd
        rcases List.mem_cons.mp hd with rfl | hd
        · exact Or.inr hce
        · exact h2 d hd
    · have hpieces : ∀ s ∈ split_sent_aux cs (c :: acc) false, py_strip_chars s = [] := by
        intro s hs
        refine h s ?_
        simpa only [split_sent_aux, hce, if_false] using hs
      obtain ⟨h1, h2⟩ := ih (c :: acc) false hpieces
      refine ⟨fun d hd => h1 d (List.mem_cons_of_mem c hd), ?_⟩
      intro d hd
      rcases List.mem_cons.mp hd with rfl | hd
      · exact Or.inl (h1 d (List.mem_cons_self d acc))
      · exact h2 d hd

/-- A text with no sentence has no word: any word character would survive
the strip of its sentence piece. -/
theorem split_words_nil_of_split_sentences_nil (text : String)
    (h : split_sentences text = []) : split_words text = [] := by
  have hpieces : ∀ s ∈ split_sent_aux text.data [] false, py_strip_chars s = [] := by
    intro s hs
    have := List.filterMap_eq_nil_iff.mp h _ (List.mem_map_of_mem py_strip_chars hs)
    by_contra hne
    rw [if_neg (by simpa [List.isEmpty_iff] using hne)] at this
    exact Option.some_ne_none _ this
  obtain ⟨-, hchars⟩ := split_sent_aux_all_space text.data [] false hpieces
  unfold split_words
  have hclean : ∀ c ∈ text.data.map
      (fun c => if is_word_char c || is_space_char c then c else ' '),
      is_space_char c = true := by
    intro d hd
    obtain ⟨c, hc, rfl⟩ := List.mem_map.mp hd
    rcases hchars c hc with hsp | hse
    · rw [if_pos (by simp [hsp])]
      exact hsp
    · have hword : (is_word_char c || is_space_char c) = false := by
        have : c = '.' ∨ c = '!' ∨ c = '?' := by
          unfold is_sent_end at hse
          rcases Bool.or_eq_true_iff.mp hse with h1 | h2
          · rcases Bool.or_eq_true_iff.mp h1 with h3 | h4
            · exact Or.inl (by simpa using h3)
            · exact Or.inr (Or.inl (by simpa using h4))
          · exact Or.inr (Or.inr (by simpa using h2))
        rcases this with rfl | rfl | rfl <;> decide
      rw [if_neg (by simp [hword])]
      decide
  show ((split_ws_chars _).map String.mk).filter _ = []
  unfold split_ws_chars
  rw [split_ws_aux_nil _ hclean]
  rfl

/-- `round(x, 2)` of a zero-valued fraction is zero. -/
theorem round2_frac_toRat_zero (x : Frac) (h : x.toRat = 0) :
    (round2_frac x).toRat = 0 := by
  rw [toRat_round2_frac, h]
  simpa using round2_natCast 0

/-- Claim C7: the readability index of ReadabilityChecker equals
`180 − average_sentence_length − 58.5 × average_syllables_per_word` clamped
to [0, 100] (never negative, never above 100), and a text with zero
sentences or zero words gets index 0 with all derived averages 0 and no
division by zero. -/
theorem claim_C7 :
    (∀ s w y : Nat, 0 ≤ (calculate_flesch_reading_ease s w y).toRat ∧
      (calculate_flesch_reading_ease s w y).toRat ≤ 100) ∧
    (∀ s w y : Nat, s ≠ 0 → w ≠ 0 →
      (calculate_flesch_reading_ease s w y).toRat =
        max 0 (min 100 (180 - (w : ℚ) / (s : ℚ) - 58.5 * ((y : ℚ) / (w : ℚ))))) ∧
    (∀ text : String, split_sentences text = [] ∨ split_words text = [] →
      (readability_check text).flesch_reading_ease.toRat = 0 ∧
      (readability_check text).avg_sentence_length.toRat = 0 ∧
      (readability_check text).avg_word_length.toRat = 0 ∧
      (readability_check text).avg_syllables_per_word.toRat = 0) := by
  have hformula : ∀ s w y : Nat, s ≠ 0 → w ≠ 0 →
      (calculate_flesch_reading_ease s w y).toRat =
        max 0 (min 100 (180 - (w : ℚ) / (s : ℚ) - 58.5 * ((y : ℚ) / (w : ℚ)))) := by
    intro s w y hs hw
    unfold calculate_flesch_reading_ease
    rw [if_neg (by simp [hs, hw])]
    dsimp only
    rw [toRat_py_max, toRat_py_min, Frac.toRat_sub, Frac.toRat_sub, Frac.toRat_mul,
      Frac.toRat_div, Frac.toRat_div, Frac.toRat_natCast, Frac.toRat_natCast,
      Frac.toRat_natCast, Frac.toRat_ofNat, Frac.toRat_ofNat, Frac.toRat_ofNat,
      Frac.toRat_sci_true]
    norm_num
  refine ⟨?_, hformula, ?_⟩
  · intro s w y
    by_cases hz : s = 0 ∨ w = 0
    · unfold calculate_flesch_reading_ease
      rw [if_pos hz]
      rw [Frac.toRat_ofNat]
      norm_num
    · push_neg at hz
      rw [hformula s w y hz.1 hz.2]
      constructor
      · exact le_max_left _ _
      · exact max_le (by norm_num) (min_le_left _ _)
  · intro text h
    have hw : split_words text = [] := by
      rcases h with h | h
      · exact split_words_nil_of_split_sentences_nil text h
      · exact h
    unfold readability_check
    dsimp only
    rw [hw]
    have hflesch : calculate_flesch_reading_ease (split_sentences text).length
        ([] : List String).length (count_syllables text) = 0 := by
      unfold calculate_flesch_reading_ease
      norm_num
    rw [hflesch]
    refine ⟨?_, ?_, ?_, ?_⟩
    · exact round2_frac_toRat_zero _ (by rw [Frac.toRat_ofNat]; norm_num)
    · by_cases hs : (split_sentences text).isEmpty
      · rw [if_neg (by simp [hs])]
        exact round2_frac_toRat_zero _ (by rw [Frac.toRat_ofNat]; norm_num)
      · rw [if_pos (by simp [hs])]
        refine round2_frac_toRat_zero _ ?_
        rw [Frac.toRat_div, Frac.toRat_natCast, Frac.toRat_natCast]
        simp
    · rw [if_neg (by simp)]
      exact round2_frac_toRat_zero _ (by rw [Frac.toRat_ofNat]; norm_num)
    · rw [if_neg (by simp)]
      exact round2_frac_toRat_zero _ (by rw [Frac.toRat_ofNat]; norm_num)

/-! ## Substring containment as position-bounded occurrence -/

theorem count_sub_aux_ne_zero_iff (needle : List Char) (hne : needle ≠ []) :
    ∀ (l : List Char) (skip : Nat),
      count_sub_aux needle l skip ≠ 0 ↔
        ∃ p, skip ≤ p ∧ needle.isPrefixOf (l.drop p) = true := by
  intro l
  induction l with
  | nil =>
    intro skip
    rcases needle with _ | ⟨n, ns⟩
    · exact absurd rfl hne
    · simp [count_sub_aux]
  | cons c cs ih =>
    intro skip
    by_cases hs : skip > 0
    · rw [count_sub_aux, if_pos hs, ih (skip - 1)]
      constructor
      · rintro ⟨p, hp1, hp2⟩
        exact ⟨p + 1, by omega, by simpa using hp2⟩
      · rintro ⟨p, hp1, hp2⟩
        rcases p with _ | p
        · omega
        · exact ⟨p, by omega, by simpa using hp2⟩
    · have hs0 : skip = 0 := by omega
      subst hs0
      by_cases hp : needle.isPrefixOf (c :: cs) = true
      · rw [count_sub_aux, if_neg (by omega), if_pos hp]
        constructor
        · intro h2
          exact ⟨0, Nat.le_refl 0, by simpa using hp⟩
        · intro h2
          omega
      · rw [count_sub_aux, if_neg (by omega), if_neg hp, ih 0]
        constructor
        · rintro ⟨p, -, hp2⟩
          exact ⟨p + 1, Nat.zero_le _, by simpa using hp2⟩
        · rintro ⟨p, -, hp2⟩
          rcases p with _ | p
          · exact absurd (by simpa using hp2) hp
          · exact ⟨p, Nat.zero_le _, by simpa using hp2⟩

/-- Python substring containment is occurrence at some position. -/
theorem py_contains_iff (hay needle : String) :
    py_contains hay needle = true ↔ ∃ p, needle.data <+: hay.data.drop p := by
  unfold py_contains count_sub
  rcases hn : needle.data with _ | ⟨n, ns⟩
  · simp only [bne_iff_ne, ne_eq, Nat.succ_ne_zero, not_false_eq_true, true_iff]
    exact ⟨0, List.nil_prefix⟩
  · rw [bne_iff_ne]
    rw [count_sub_aux_ne_zero_iff (n :: ns) (by simp) hay.data 0]
    constructor
    · rintro ⟨p, -, hp⟩
      exact ⟨p, List.isPrefixOf_iff_prefix.mp hp⟩
    · rintro ⟨p, hp⟩
      exact ⟨p, Nat.zero_le _, List.isPrefixOf_iff_prefix.mpr hp⟩

/-- Claim C8 (amended): the +10 first-paragraph bonus is awarded exactly when
some occurrence of the lowercased keyword lies entirely within the first 200
characters of the plain text (the source checks
`keyword.lower() in plain_text[:200].lower()`), for every document and
keyword — not within the first 500 characters as the position flag uses. -/
theorem claim_C8 :
    ∀ (doc : Doc) (keyword : String),
      (first_paragraph_part doc.plain_text keyword).1 = 10 ↔
        ∃ p, p + keyword.data.length ≤ 200 ∧
          lower_chars keyword.data <+: (lower_chars doc.plain_text.data).drop p := by
  intro doc keyword
  have hlen : (lower_chars keyword.data).length = keyword.data.length :=
    List.length_map _ _
  have hchain : py_contains (py_lower (py_take doc.plain_text 200))
      (py_lower keyword) = true ↔
      ∃ p, p + keyword.data.length ≤ 200 ∧
        lower_chars keyword.data <+: (lower_chars doc.plain_text.data).drop p := by
    rw [py_contains_iff]
    have hdata : (py_lower (py_take doc.plain_text 200)).data =
        (lower_chars doc.plain_text.data).take 200 := by
      show lower_chars (doc.plain_text.data.take 200) = _
      exact List.map_take _ _ _
    rw [hdata]
    show (∃ p, (py_lower keyword).data <+: _) ↔ _
    have hkd : (py_lower keyword).data = lower_chars keyword.data := rfl
    rw [hkd]
    constructor
    · rintro ⟨p, hp⟩
      rw [List.drop_take, List.prefix_take_iff, hlen] at hp
      obtain ⟨hp1, hp2⟩ := hp
      by_cases hple : p ≤ 200
      · exact ⟨p, by omega, hp1⟩
      · have hzero : keyword.data.length = 0 := by omega
        have hnil : lower_chars keyword.data = [] := by
          rw [List.length_eq_zero.mp hzero]
          rfl
        refine ⟨0, by omega, ?_⟩
        rw [hnil]
        exact List.nil_prefix
    · rintro ⟨p, hp1, hp2⟩
      refine ⟨p, ?_⟩
      rw [List.drop_take, List.prefix_take_iff, hlen]
      exact ⟨hp2, by omega⟩
  unfold first_paragraph_part
  dsimp only
  by_cases hc : py_contains (py_lower (py_take doc.plain_text 200))
      (py_lower keyword) = true
  · rw [if_pos hc]
    simpa using hchain.mp hc
  · rw [if_neg hc]
    simp only [OfNat.zero_ne_ofNat, false_iff]
    intro hex
    exact hc (hchain.mpr hex)

set_option maxRecDepth 12000 in
/-- Claim C8 counterexample: in `text_pos300` the keyword's only occurrence
starts at offset 300 — within the first 500 characters, so the analyzer's
first-paragraph flag is set — yet the +10 bonus is not awarded (the scorer
checks only the first 200 characters): the keyword category collects just
the minimum 10 + 10 points. -/
theorem claim_C8_counterexample :
    (find_keyword_positions text_pos300 "xyz").in_first_paragraph = true ∧
    (first_paragraph_part text_pos300 "xyz").1 = 0 ∧
    (score_keyword_optimization (mk_plain_doc text_pos300) "xyz").score = 20 := by
  refine ⟨by decide, by decide, by decide⟩

/-! ## The density tier -/

theorem keyword_analyze_main (text kw : String) :
    (keyword_analyze text kw).main_keyword =
      analyze_main_keyword (py_lower text) (tokenize text) kw := rfl

theorem analyze_main_keyword_density (tl : String) (words : List String) (kw : String) :
    (analyze_main_keyword tl words kw).density = round2_frac
      (if words.length > 0 then
        ((py_count tl (py_lower kw)) : Frac) / (words.length : Frac) * 100
      else 0) := rfl

/-- Claim C3 (amended): the density the analyzer reports is the claim's
density rounded to two decimals (Python `round(·, 2)`), and the 40-point
tier is awarded exactly when that rounded value lies in [1.0, 3.0] — any
other rounded value scores strictly fewer points. The spec's worked example
(3 occurrences among 200 tokens, density 1.50 %) earns the full 40. The
comparison happens after rounding, which is what the counterexample
exploits. -/
theorem claim_C3 :
    (∀ (text kw : String), (tokenize text).length ≠ 0 →
      (keyword_analyze text kw).main_keyword.density.toRat =
        round2 (claim_density text kw)) ∧
    (∀ d : Frac,
      ((density_part d).1 = 40 ↔ 1 ≤ d.toRat ∧ d.toRat ≤ 3) ∧
      (¬(1 ≤ d.toRat ∧ d.toRat ≤ 3) → (density_part d).1 < 40)) ∧
    (claim_density text_kw200 "xyz" = 3 / 2 ∧
      (density_part ((keyword_analyze text_kw200 "xyz").main_keyword.density)).1 = 40) := by
  refine ⟨?_, ?_, ?_, ?_⟩
  · intro text kw h
    rw [keyword_analyze_main, analyze_main_keyword_density,
      if_pos (Nat.pos_of_ne_zero h), toRat_round2_frac, Frac.toRat_mul,
      Frac.toRat_div, Frac.toRat_natCast, Frac.toRat_natCast, Frac.toRat_ofNat]
    unfold claim_density
    norm_num
  · intro d
    have c1 : ((1.0 : Frac) ≤ d ∧ d ≤ 3.0) ↔ (1 ≤ d.toRat ∧ d.toRat ≤ 3) := by
      rw [Frac.le_iff, Frac.le_iff, Frac.toRat_sci_true, Frac.toRat_sci_true]
      norm_num
    constructor
    · unfold density_part
      by_cases h : (1.0 : Frac) ≤ d ∧ d ≤ 3.0
      · rw [if_pos h]
        exact ⟨fun _ => c1.mp h, fun _ => rfl⟩
      · rw [if_neg h]
        constructor
        · intro h40
          split_ifs at h40 <;> dsimp only at h40 <;> omega
        · intro hq
          exact absurd (c1.mpr hq) h
    · intro hq
      unfold density_part
      rw [if_neg fun hc => hq (c1.mp hc)]
      split_ifs <;> dsimp only <;> omega
  · set_option maxRecDepth 12000 in
    have h1 : py_count (py_lower text_kw200) (py_lower "xyz") = 3 := by decide
    set_option maxRecDepth 12000 in
    have h2 : (tokenize text_kw200).length = 200 := by decide
    unfold claim_density
    rw [h1, h2]
    norm_num
  · set_option maxRecDepth 12000 in
    decide

/-- Claim C3 counterexample: in `text_kw201` the keyword occurs twice among
201 tokens, so the claim's density is 200/201 ≈ 0.995 % — outside the
claimed [1.0, 3.0] band — yet the sub-criterion awards its maximal 40
points, because the code first rounds the density to two decimals (1.00)
and compares the rounded value. -/
theorem claim_C3_counterexample :
    py_count (py_lower text_kw201) (py_lower "xyz") = 2 ∧
    (tokenize text_kw201).length = 201 ∧
    claim_density text_kw201 "xyz" < 1 ∧
    (keyword_analyze text_kw201 "xyz").main_keyword.density.eqv 1 ∧
    (density_part ((keyword_analyze text_kw201 "xyz").main_keyword.density)).1 = 40 := by
  have h1 : py_count (py_lower text_kw201) (py_lower "xyz") = 2 := by
    set_option maxRecDepth 12000 in decide
  have h2 : (tokenize text_kw201).length = 201 := by
    set_option maxRecDepth 12000 in decide
  refine ⟨h1, h2, ?_, ?_, ?_⟩
  · unfold claim_density
    rw [h1, h2]
    norm_num
  · set_option maxRecDepth 12000 in decide
  · set_option maxRecDepth 12000 in decide

/-! ## Degenerate inputs -/

theorem analyze_main_keyword_count (tl : String) (words : List String) (kw : String) :
    (analyze_main_keyword tl words kw).count = py_count tl (py_lower kw) := rfl

theorem py_contains_empty_hay (needle : String) (h : needle.data ≠ []) :
    py_contains "" needle = false := by
  unfold py_contains count_sub
  rcases hn : needle.data with _ | ⟨n, ns⟩
  · exact absurd hn h
  · rfl

theorem py_lower_data_ne (kw : String) (h : kw ≠ "") : (py_lower kw).data ≠ [] := by
  intro hc
  apply h
  cases kw with
  | mk data =>
    cases data with
    | nil => rfl
    | cons c cs => simp [py_lower, lower_chars] at hc

/-- Claim C5 (amended): with empty text the scorer does not raise and every
word/sentence-derived rate degrades to 0 (readability averages, keyword
density), the density sub-criterion falls to its minimum tier of 10 points,
the keyword category collects only the two minimum tiers (20 points), with
the empty benchmark the length tier is also minimal (content quality 10
points) and the whole score evaluates (total 12.0). With an empty keyword
the call still does not raise, but Python counts the empty substring
`len(text) + 1` times, so the keyword count is `len + 1` and for non-empty
text the density does not degrade to 0 (see the counterexample). -/
theorem claim_C5 :
    ((readability_check "").flesch_reading_ease.eqv 0 ∧
     (readability_check "").avg_sentence_length.eqv 0 ∧
     (readability_check "").avg_word_length.eqv 0 ∧
     (readability_check "").avg_syllables_per_word.eqv 0) ∧
    (∀ kw : String, (keyword_analyze "" kw).main_keyword.density.eqv 0 ∧
      (density_part ((keyword_analyze "" kw).main_keyword.density)).1 = 10) ∧
    (score_content_quality "" CompetitorData.empty).score = 10 ∧
    (∀ kw : String, kw ≠ "" →
      (score_keyword_optimization (mk_plain_doc "") kw).score = 20 ∧
      (content_score (mk_plain_doc "") kw CompetitorData.empty).total_score.eqv 12) ∧
    (∀ text : String, (keyword_analyze text "").main_keyword.count =
      text.data.length + 1) := by
  refine ⟨⟨by decide, by decide, by decide, by decide⟩, ?_, by decide, ?_, ?_⟩
  · intro kw
    constructor
    · show (round2_frac 0).eqv 0
      decide
    · show (density_part (round2_frac 0)).1 = 10
      decide
  · intro kw hk
    have hc : py_contains (py_lower (py_take (mk_plain_doc "").plain_text 200))
        (py_lower kw) = false := by
      show py_contains "" (py_lower kw) = false
      exact py_contains_empty_hay _ (py_lower_data_ne kw hk)
    have hkwcat : (score_keyword_optimization (mk_plain_doc "") kw).score = 20 := by
      unfold score_keyword_optimization
      dsimp only
      rw [mk_cat_score]
      have hd : (density_part
          ((keyword_analyze (mk_plain_doc "").plain_text kw).main_keyword.density)).1
          = 10 := by
        show (density_part (round2_frac 0)).1 = 10
        decide
      have hp1 : (first_paragraph_part (mk_plain_doc "").plain_text kw).1 = 0 := by
        unfold first_paragraph_part
        dsimp only
        rw [hc]
        rfl
      have hp2 : (h1_part (mk_plain_doc "").h1_texts kw).1 = 0 := rfl
      have hp3 : (h2_part (mk_plain_doc "").h2_texts kw).1 = 0 := rfl
      have hl : (lsi_part
          ((keyword_analyze (mk_plain_doc "").plain_text kw).related_keywords.length)).1
          = 10 := by
        show (lsi_part 0).1 = 10
        decide
      rw [hd, hp1, hp2, hp3, hl]
    refine ⟨hkwcat, ?_⟩
    have htech : (score_technical_seo (mk_plain_doc "") kw).score = 0 := rfl
    rw [content_score_total, hkwcat, htech]
    decide
  · intro text
    rw [keyword_analyze_main, analyze_main_keyword_count]
    show count_sub (lower_chars text.data) [] = _
    show (text.data.map lower_char).length + 1 = _
    rw [List.length_map]

/-- Claim C5 counterexample: with the empty keyword and the 7-character
two-token text `"abc abc"` Python's substring count reports 8 occurrences
(`len + 1`), so the keyword density is 8/2·100 = 400 — it does not degrade
to 0 — and the first-paragraph bonus of the keyword category is awarded
(the empty string occurs in every prefix), so the affected sub-scores are
not all at their minimum tier. -/
theorem claim_C5_counterexample :
    (keyword_analyze text_two_tokens "").main_keyword.count = 8 ∧
    (keyword_analyze text_two_tokens "").main_keyword.density.eqv 400 ∧
    ¬(keyword_analyze text_two_tokens "").main_keyword.density.eqv 0 ∧
    (first_paragraph_part text_two_tokens "").1 = 10 := by
  refine ⟨by decide, by decide, by decide, by decide⟩

/-! ## Improvement suggestions -/

theorem flatMap_sublist_of_sublist {α β : Type} (f g : α → List β) (l : List α)
    (h : ∀ a ∈ l, (f a).Sublist (g a)) : (l.flatMap f).Sublist (l.flatMap g) := by
  induction l with
  | nil => simp
  | cons a as ih =>
    rw [List.flatMap_cons, List.flatMap_cons]
    exact (h a (List.mem_cons_self a as)).append
      (ih fun b hb => h b (List.mem_cons_of_mem a hb))

/-- Claim C6 (amended): get_improvement_suggestions returns, from every
category whose percentage is below 70, exactly the findings that carry the
`✗` or `⚠` marker — `✓`-findings of such categories are dropped — and the
returned list is a sublist (in order: category iteration order, then detail
order) of the concatenated detail lists. -/
theorem claim_C6 :
    ∀ r : ScoreResult,
      (∀ s : String, s ∈ get_improvement_suggestions r ↔
        ∃ c ∈ categories r, c.percentage < 70 ∧ s ∈ c.details ∧
          detail_is_marked s = true) ∧
      (get_improvement_suggestions r).Sublist
        ((categories r).flatMap CatResult.details) := by
  intro r
  constructor
  · intro s
    unfold get_improvement_suggestions
    rw [List.mem_flatMap]
    constructor
    · rintro ⟨c, hc, hs⟩
      by_cases hp : c.percentage < 70
      · rw [if_pos hp] at hs
        obtain ⟨h1, h2⟩ := List.mem_filter.mp hs
        exact ⟨c, hc, hp, h1, h2⟩
      · rw [if_neg hp] at hs
        exact absurd hs (List.not_mem_nil s)
    · rintro ⟨c, hc, hp, h1, h2⟩
      refine ⟨c, hc, ?_⟩
      rw [if_pos hp]
      exact List.mem_filter.mpr ⟨h1, h2⟩
  · unfold get_improvement_suggestions
    refine flatMap_sublist_of_sublist _ _ _ fun c _ => ?_
    by_cases hp : c.percentage < 70
    · rw [if_pos hp]
      exact List.filter_sublist c.details
    · rw [if_neg hp]
      exact List.nil_sublist c.details

set_option maxRecDepth 12000 in
/-- Claim C6 counterexample: on `text_kw40` the keyword category scores
60 % — below the 70 % threshold — and its details contain the satisfied
finding `"✓ Keyword-Dichte optimal: 2.50%"`, yet that finding is not among
the returned suggestions: only `✗`/`⚠`-marked findings are returned, so the
claim that every finding of a sub-70 category is returned fails. -/
theorem claim_C6_counterexample :
    (content_score (mk_plain_doc text_kw40) "xyz"
        CompetitorData.empty).keyword_optimization.percentage < 70 ∧
    "✓ Keyword-Dichte optimal: 2.50%" ∈
      (content_score (mk_plain_doc text_kw40) "xyz"
        CompetitorData.empty).keyword_optimization.details ∧
    "✓ Keyword-Dichte optimal: 2.50%" ∉
      get_improvement_suggestions
        (content_score (mk_plain_doc text_kw40) "xyz" CompetitorData.empty) := by
  refine ⟨by decide, by decide, by decide⟩

/-! ## Related keywords -/

theorem mem_insert_by_relevance (p x : RelKw) (l : List RelKw) :
    x ∈ insert_by_relevance p l ↔ x = p ∨ x ∈ l := by
  induction l with
  | nil => simp [insert_by_relevance]
  | cons q qs ih =>
    unfold insert_by_relevance
    by_cases hq : p.relevance < q.relevance
    · rw [if_pos hq]
      rw [List.mem_cons, ih, List.mem_cons]
      tauto
    · rw [if_neg hq]
      simp only [List.mem_cons]

theorem mem_sort_by_relevance (x : RelKw) (l : List RelKw) :
    x ∈ sort_by_relevance l ↔ x ∈ l := by
  unfold sort_by_relevance
  induction l with
  | nil => simp
  | cons q qs ih =>
    rw [List.foldr_cons, mem_insert_by_relevance, List.mem_cons, ih]

theorem insert_by_relevance_pairwise (p : RelKw) (l : List RelKw)
    (h : l.Pairwise relevance_ge) :
    (insert_by_relevance p l).Pairwise relevance_ge := by
  induction l with
  | nil => simp [insert_by_relevance]
  | cons q qs ih =>
    obtain ⟨hq, hqs⟩ := List.pairwise_cons.mp h
    unfold insert_by_relevance
    by_cases hlt : p.relevance < q.relevance
    · rw [if_pos hlt]
      rw [List.pairwise_cons]
      refine ⟨?_, ih hqs⟩
      intro x hx
      rcases (mem_insert_by_relevance p x qs).mp hx with rfl | hx
      · exact le_of_lt ((Frac.lt_iff _ _).mp hlt)
      · exact hq x hx
    · rw [if_neg hlt]
      rw [List.pairwise_cons]
      constructor
      · intro x hx
        rcases List.mem_cons.mp hx with rfl | hx
        · exact (Frac.le_iff _ _).mp (Frac.not_lt.mp hlt)
        · exact le_trans (hq x hx) ((Frac.le_iff _ _).mp (Frac.not_lt.mp hlt))
      · exact h

theorem sort_by_relevance_pairwise (l : List RelKw) :
    (sort_by_relevance l).Pairwise relevance_ge := by
  unfold sort_by_relevance
  induction l with
  | nil => simp
  | cons q qs ih =>
    rw [List.foldr_cons]
    exact insert_by_relevance_pairwise q _ ih

theorem mem_related_candidates (ws : List String) (kw : String) (r : RelKw) :
    r ∈ related_candidates ws kw ↔
      ∃ wc ∈ most_common 50 (word_counter ws),
        ¬(wc.1 ∈ stopwords ∨ wc.1 = py_lower kw) ∧ 2 ≤ wc.2 ∧
        r = ⟨wc.1, wc.2, calculate_relevance wc.1 kw⟩ := by
  unfold related_candidates
  induction most_common 50 (word_counter ws) with
  | nil => simp
  | cons wc L ih =>
    rw [List.foldr_cons]
    by_cases h1 : wc.1 ∈ stopwords ∨ wc.1 = py_lower kw
    · rw [if_pos h1, ih]
      constructor
      · rintro ⟨wc', hm, hp⟩
        exact ⟨wc', List.mem_cons_of_mem wc hm, hp⟩
      · rintro ⟨wc', hm, hp⟩
        rcases List.mem_cons.mp hm with rfl | hm
        · exact absurd h1 hp.1.elim
        · exact ⟨wc', hm, hp⟩
    · rw [if_neg h1]
      by_cases h2 : wc.2 ≥ 2
      · rw [if_pos h2, List.mem_cons, ih]
        constructor
        · rintro (rfl | ⟨wc', hm, hp⟩)
          · exact ⟨wc, List.mem_cons_self wc L, h1, h2, rfl⟩
          · exact ⟨wc', List.mem_cons_of_mem wc hm, hp⟩
        · rintro ⟨wc', hm, hp⟩
          rcases List.mem_cons.mp hm with rfl | hm
          · exact Or.inl hp.2.2
          · exact Or.inr ⟨wc', hm, hp⟩
      · rw [if_neg h2, ih]
        constructor
        · rintro ⟨wc', hm, hp⟩
          exact ⟨wc', List.mem_cons_of_mem wc hm, hp⟩
        · rintro ⟨wc', hm, hp⟩
          rcases List.mem_cons.mp hm with rfl | hm
          · exact absurd hp.2.1 h2
          · exact ⟨wc', hm, hp⟩

/-- Claim C9 (amended): related-term discovery draws its candidates only
from the 50 most frequent tokens (`Counter.most_common(50)`): every returned
related keyword has count at least 2, is no stop word, differs from the
lowercased main keyword, comes from the top-50 counter entries and carries
the relevance the heuristic assigns; conversely every top-50 entry passing
those filters is a candidate before the top-20 cut; the output holds at most
20 entries, sorted by non-increasing relevance; and a token standing in a
substring relation with the keyword has relevance exactly 1. A token with
count at least 2 outside the 50 most common tokens is not a candidate (see
the counterexample). -/
theorem claim_C9 :
    (∀ (ws : List String) (kw : String) (r : RelKw),
      r ∈ find_related_keywords ws kw →
        2 ≤ r.count ∧ r.keyword ∉ stopwords ∧ r.keyword ≠ py_lower kw ∧
        (r.keyword, r.count) ∈ most_common 50 (word_counter ws) ∧
        r.relevance = calculate_relevance r.keyword kw) ∧
    (∀ (ws : List String) (kw : String) (w : String) (c : Nat),
      (w, c) ∈ most_common 50 (word_counter ws) → w ∉ stopwords →
      w ≠ py_lower kw → 2 ≤ c →
      (⟨w, c, calculate_relevance w kw⟩ : RelKw) ∈ related_candidates ws kw) ∧
    (∀ (ws : List String) (kw : String),
      (find_related_keywords ws kw).length ≤ 20 ∧
      (find_related_keywords ws kw).Pairwise relevance_ge) ∧
    (∀ (w kw : String),
      py_contains (py_lower kw) w = true ∨ py_contains w (py_lower kw) = true →
      calculate_relevance w kw = 1) := by
  refine ⟨?_, ?_, ?_, ?_⟩
  · intro ws kw r hr
    have hmem : r ∈ related_candidates ws kw := by
      have h1 := (List.take_sublist 20 _).mem hr
      exact (mem_sort_by_relevance r _).mp h1
    obtain ⟨wc, hwc, hns, hc2, rfl⟩ := (mem_related_candidates ws kw r).mp hmem
    push_neg at hns
    exact ⟨hc2, hns.1, hns.2, by simpa using hwc, rfl⟩
  · intro ws kw w c hm hs hk hc
    exact (mem_related_candidates ws kw _).mpr
      ⟨(w, c), hm, by simp [hs, hk], hc, rfl⟩
  · intro ws kw
    constructor
    · unfold find_related_keywords
      exact List.length_take_le 20 _
    · unfold find_related_keywords
      exact List.Pairwise.sublist (List.take_sublist 20 _)
        (sort_by_relevance_pairwise _)
  · intro w kw h
    unfold calculate_relevance
    rw [if_pos (by rcases h with h | h <;> simp [h])]

set_option maxRecDepth 12000 in
/-- Claim C9 counterexample: in `words_c9` the token `zzz` occurs twice, is
no stop word and differs from the main keyword `qqq`, yet it is not a
candidate (let alone a result): it is not among the 50 most common tokens,
which are the only ones the source inspects. -/
theorem claim_C9_counterexample :
    ("zzz", 2) ∈ word_counter words_c9 ∧
    "zzz" ∉ stopwords ∧
    "zzz" ≠ py_lower "qqq" ∧
    "zzz" ∉ (most_common 50 (word_counter words_c9)).map Prod.fst ∧
    "zzz" ∉ (related_candidates words_c9 "qqq").map RelKw.keyword ∧
    "zzz" ∉ (find_related_keywords words_c9 "qqq").map RelKw.keyword := by
  refine ⟨by decide, by decide, by decide, by decide, by decide, by decide⟩

end SEOGen
